import Mathlib

/-!
Verification model of the DHCPv6 client of this repository: the wire codec
(`src/wire/dhcpv6.rs`) and the client state machine (`src/socket/dhcpv6.rs`).

Bytes are modelled as `Nat` (each value < 256 on well-formed data), byte
buffers as `List Nat`.  Fallible Rust code returning `Result<T, Error>` is
modelled with the three-outcome type `ER`: `.ok`, `.err` (returning
`Err(Error)`), and `.crash` (a Rust panic, e.g. an out-of-bounds slice
index).  `heapless::Vec<T, N>` pushes that silently drop on overflow are
modelled by `pushCap`.
-/

namespace Dhcpv6

/-- Outcome of a fallible Rust computation: `ok`, `Err(Error)`, or a panic
(out-of-bounds index / failed slice). -/
inductive ER (α : Type) where
  | ok : α → ER α
  | err : ER α
  | crash : ER α
  deriving DecidableEq, Inhabited

/-- `heapless::Vec::push(..).ok()`: append only when below capacity,
silently drop otherwise. -/
def pushCap (cap : Nat) (xs : List α) (x : α) : List α :=
  if xs.length < cap then xs ++ [x] else xs

/-- `heapless::Vec::extend_from_slice(..).ok()` on a fresh vector of
capacity `cap`: copies everything when it fits, else copies nothing. -/
def vecFromCap (cap : Nat) (xs : List α) : List α :=
  if xs.length ≤ cap then xs else []

/-- Big-endian 2-byte encoding of `n` (truncated to `u16`, matching
`as u16` / `write_u16`). -/
def u16be (n : Nat) : List Nat := [n / 256 % 256, n % 256]

/-- Big-endian 3-byte encoding of `n` (truncated to 24 bits, matching the
mask in `set_transaction_id` followed by `write_u24`). -/
def u24be (n : Nat) : List Nat := [n / 65536 % 256, n / 256 % 256, n % 256]

/-- Big-endian 4-byte encoding of `n` (truncated to `u32`). -/
def u32be (n : Nat) : List Nat :=
  [n / 16777216 % 256, n / 65536 % 256, n / 256 % 256, n % 256]

/-- `u32::from_be_bytes` on the first four bytes of a buffer (only used
where the source has already ensured four bytes exist). -/
def readU32 : List Nat → Nat
  | a :: b :: c :: d :: _ => ((a * 256 + b) * 256 + c) * 256 + d
  | _ => 0

/-- `NetworkEndian::read_u16` on the first two bytes of a buffer. -/
def readU16 : List Nat → Nat
  | a :: b :: _ => a * 256 + b
  | _ => 0

/-- Option-code constants from `mod field` of `src/wire/dhcpv6.rs`. -/
def OPT_CLIENTID : Nat := 1
def OPT_SERVERID : Nat := 2
def OPT_IA_NA : Nat := 3
def OPT_IA_TA : Nat := 4
def OPT_IA_ADDR : Nat := 5
def OPT_ORO : Nat := 6
def OPT_ELAPSED_TIME : Nat := 8
def OPT_STATUS_CODE : Nat := 13
def OPT_DNS_SERVERS : Nat := 23
def OPT_IA_PD : Nat := 25

def MAX_REQUEST_OPTIONS : Nat := 16
def MAX_IA_ADDRESSES : Nat := 16
def MAX_DNS_ADDRESSES : Nat := 16

/-- `Dhcpv6Option`: a single `(code, data)` option. -/
structure Dhcpv6Option where
  kind : Nat
  data : List Nat
  deriving DecidableEq, Inhabited

/-- Fuel-indexed body of `parse_options`; each step consumes at least 4
bytes, so `buf.length` steps of fuel always suffice (the fuel is a
termination artifact of the embedding and is irrelevant above
`buf.length`, see `parseOptionsF_fuel`). -/
def parseOptionsF : Nat → List Nat → List Dhcpv6Option
  | 0, _ => []
  | fuel + 1, k1 :: k2 :: l1 :: l2 :: rest =>
    let kind := k1 * 256 + k2
    let len := l1 * 256 + l2
    if rest.length < len then []
    else ⟨kind, rest.take len⟩ :: parseOptionsF fuel (rest.drop len)
  | _ + 1, _ => []

/-- `parse_options`: walk an option stream, yielding `(kind, data)` pairs.
Stops when fewer than 4 bytes remain or the declared length exceeds the
remaining bytes. -/
def parse_options (buf : List Nat) : List Dhcpv6Option :=
  parseOptionsF buf.length buf

/-- `ReprStatusCode`.  The `status_message` field is `String::from_utf8_lossy`
of the raw bytes in the source; the model keeps the raw bytes. -/
structure ReprStatusCode where
  status_code : Nat
  status_message : List Nat
  deriving DecidableEq, Inhabited

/-- `ReprStatusCode::parse`: require at least 2 bytes, read the code, keep
the remainder as the message. -/
def ReprStatusCode.parse (data : List Nat) : ER ReprStatusCode :=
  if data.length < 2 then .err
  else .ok { status_code := readU16 data, status_message := data.drop 2 }

/-- `ReprIaAddr`: an IA address (16-byte address, two lifetimes). -/
structure ReprIaAddr where
  addr : List Nat
  preferred_lifetime : Nat
  valid_lifetime : Nat
  additional_options : List Dhcpv6Option
  deriving DecidableEq, Inhabited

/-- `ReprIaAddr::parse`: reads 16 address bytes and two `u32` lifetimes by
direct slicing, so data shorter than 24 bytes panics (`.crash`); the
trailing nested options are iterated but all ignored. -/
def ReprIaAddr.parse (data : List Nat) : ER ReprIaAddr :=
  if 24 ≤ data.length then
    .ok { addr := data.take 16
          preferred_lifetime := readU32 (data.drop 16)
          valid_lifetime := readU32 (data.drop 20)
          additional_options := [] }
  else .crash

/-- `ReprIaNa`: IAID, T1, T2, bounded addresses, optional status code. -/
structure ReprIaNa where
  iaid : Nat
  t1 : Nat
  t2 : Nat
  addresses : List ReprIaAddr
  status_code : Option ReprStatusCode
  additional_options : List Dhcpv6Option
  deriving DecidableEq, Inhabited

/-- The option walk inside `ReprIaNa::parse` and `ReprIaTa::parse`:
addresses are collected from nested options with code `OPT_IA_PD` (25),
status codes from code 13; a parse failure of a nested option propagates
(`?`), a push beyond 16 addresses is dropped (`.ok()`). -/
def iaOptionsFold (opts : List Dhcpv6Option) (addrs : List ReprIaAddr)
    (status : Option ReprStatusCode) : ER (List ReprIaAddr × Option ReprStatusCode) :=
  match opts with
  | [] => .ok (addrs, status)
  | o :: rest =>
    if o.kind = OPT_IA_PD then
      match ReprIaAddr.parse o.data with
      | .ok a => iaOptionsFold rest (pushCap MAX_IA_ADDRESSES addrs a) status
      | .err => .err
      | .crash => .crash
    else if o.kind = OPT_STATUS_CODE then
      match ReprStatusCode.parse o.data with
      | .ok s => iaOptionsFold rest addrs (some s)
      | .err => .err
      | .crash => .crash
    else iaOptionsFold rest addrs status

/-- `ReprIaNa::parse`: reads IAID, T1, T2 by direct slicing (panic when
fewer than 12 bytes), then walks the nested options. -/
def ReprIaNa.parse (data : List Nat) : ER ReprIaNa :=
  if 12 ≤ data.length then
    match iaOptionsFold (parse_options (data.drop 12)) [] none with
    | .ok (addrs, status) =>
      .ok { iaid := readU32 data, t1 := readU32 (data.drop 4), t2 := readU32 (data.drop 8)
            addresses := addrs, status_code := status, additional_options := [] }
    | .err => .err
    | .crash => .crash
  else .crash

/-- `ReprIaTa`: IAID, bounded addresses, optional status code. -/
structure ReprIaTa where
  iaid : Nat
  addresses : List ReprIaAddr
  status_code : Option ReprStatusCode
  additional_options : List Dhcpv6Option
  deriving DecidableEq, Inhabited

/-- `ReprIaTa::parse`: reads the IAID by direct slicing (panic when fewer
than 4 bytes), then walks the nested options exactly like IA_NA. -/
def ReprIaTa.parse (data : List Nat) : ER ReprIaTa :=
  if 4 ≤ data.length then
    match iaOptionsFold (parse_options (data.drop 4)) [] none with
    | .ok (addrs, status) =>
      .ok { iaid := readU32 data, addresses := addrs, status_code := status
            additional_options := [] }
    | .err => .err
    | .crash => .crash
  else .crash

/-- `ReprDnsServers`: bounded list of 16-byte server addresses. -/
structure ReprDnsServers where
  addresses : List (List Nat)
  deriving DecidableEq, Inhabited

/-- Fuel-indexed body of `dnsServersFold` (fuel `data.length` always
suffices: each step consumes 16 bytes). -/
def dnsServersFoldF : Nat → List Nat → List (List Nat) → List (List Nat)
  | 0, _, acc => acc
  | fuel + 1, data, acc =>
    if 16 ≤ data.length then
      dnsServersFoldF fuel (data.drop 16) (pushCap MAX_DNS_ADDRESSES acc (data.take 16))
    else acc

/-- The `while data.len() >= 16` loop of `ReprDnsServers::parse`. -/
def dnsServersFold (data : List Nat) (acc : List (List Nat)) : List (List Nat) :=
  dnsServersFoldF data.length data acc

/-- `ReprDnsServers::parse`: consume 16-byte chunks; a trailing partial
chunk is silently ignored. -/
def ReprDnsServers.parse (data : List Nat) : ER ReprDnsServers :=
  .ok { addresses := dnsServersFold data [] }

/-- Fuel-indexed body of `oroFold` (fuel `data.length` always suffices:
each step consumes at least 2 bytes). -/
def oroFoldF : Nat → List Nat → List Nat → ER (List Nat)
  | _, [], acc => .ok acc
  | _, [_], _ => .crash
  | 0, _ :: _ :: _, acc => .ok acc
  | fuel + 1, a :: b :: rest, acc =>
    oroFoldF fuel (rest.drop 2) (pushCap MAX_REQUEST_OPTIONS acc (a * 256 + b))

/-- The `data.chunks(4)` loop of the `OPT_ORO` arm of `Repr::parse`: each
4-byte chunk contributes the `u16` made of its FIRST two bytes; a final
1-byte chunk panics inside `read_u16`. -/
def oroFold (data acc : List Nat) : ER (List Nat) :=
  oroFoldF data.length data acc

/-- `Repr`: the high-level DHCPv6 message representation. -/
structure Repr where
  message_type : Nat
  transaction_id : Nat
  client_id : Option (List Nat)
  server_id : Option (List Nat)
  elapsed_time : Option Nat
  request_options : Option (List Nat)
  ia_na : Option ReprIaNa
  ia_ta : Option ReprIaTa
  dns_servers : Option ReprDnsServers
  additional_options : List Dhcpv6Option
  deriving DecidableEq, Inhabited

/-- Accumulator for the top-level option walk of `Repr::parse`. -/
structure ParseAcc where
  client_id : Option (List Nat) := none
  server_id : Option (List Nat) := none
  elapsed_time : Option Nat := none
  request_options : Option (List Nat) := none
  ia_na : Option ReprIaNa := none
  ia_ta : Option ReprIaTa := none
  dns_servers : Option ReprDnsServers := none
  deriving DecidableEq, Inhabited

/-- The top-level option walk of `Repr::parse`: recognized codes populate
the typed fields; an elapsed-time option is accepted only with data length
exactly 2; unknown codes fall through. -/
def topOptionsFold (opts : List Dhcpv6Option) (acc : ParseAcc) : ER ParseAcc :=
  match opts with
  | [] => .ok acc
  | o :: rest =>
    if o.kind = OPT_CLIENTID then
      topOptionsFold rest { acc with client_id := some o.data }
    else if o.kind = OPT_SERVERID then
      topOptionsFold rest { acc with server_id := some o.data }
    else if o.kind = OPT_ELAPSED_TIME ∧ o.data.length = 2 then
      topOptionsFold rest { acc with elapsed_time := some (readU16 o.data) }
    else if o.kind = OPT_IA_NA then
      match ReprIaNa.parse o.data with
      | .ok ia => topOptionsFold rest { acc with ia_na := some ia }
      | .err => .err
      | .crash => .crash
    else if o.kind = OPT_IA_TA then
      match ReprIaTa.parse o.data with
      | .ok ia => topOptionsFold rest { acc with ia_ta := some ia }
      | .err => .err
      | .crash => .crash
    else if o.kind = OPT_DNS_SERVERS then
      match ReprDnsServers.parse o.data with
      | .ok dns => topOptionsFold rest { acc with dns_servers := some dns }
      | .err => .err
      | .crash => .crash
    else if o.kind = OPT_ORO then
      match oroFold o.data [] with
      | .ok codes => topOptionsFold rest { acc with request_options := some codes }
      | .err => .err
      | .crash => .crash
    else topOptionsFold rest acc

/-- `Repr::parse` over a raw packet buffer: byte 0 is the message type,
bytes 1..4 the 24-bit transaction id (reading them on a buffer shorter
than 4 bytes panics; `Packet::new_checked` in the callers rejects such
buffers first), and the remainder is the top-level option stream. -/
def Repr.parse (buf : List Nat) : ER Repr :=
  if 4 ≤ buf.length then
    match topOptionsFold (parse_options (buf.drop 4)) {} with
    | .ok acc =>
      .ok { message_type := buf.headD 0
            transaction_id := (buf.drop 1).take 3 |>.foldl (fun n b => n * 256 + b) 0
            client_id := acc.client_id, server_id := acc.server_id
            elapsed_time := acc.elapsed_time, request_options := acc.request_options
            ia_na := acc.ia_na, ia_ta := acc.ia_ta, dns_servers := acc.dns_servers
            additional_options := [] }
    | .err => .err
    | .crash => .crash
  else .crash

/-! ## Emission

The option writer owns a shrinking mutable buffer.  The model threads the
remaining capacity and accumulates the written bytes: a writer action maps
a capacity to `.ok (remaining capacity, bytes written)`, `.err`, or
`.crash`. -/

/-- A writer action over the remaining buffer capacity. -/
abbrev WriterM := Nat → ER (Nat × List Nat)

/-- The unchecked writes of the nested emitters
(`buffer[0..k].copy_from_slice(..)` followed by `split_at_mut(k)`): they
panic when fewer than `k` bytes remain. -/
def wRaw (bytes : List Nat) : WriterM := fun cap =>
  if bytes.length ≤ cap then .ok (cap - bytes.length, bytes) else .crash

/-- `Dhcpv6OptionWriter::emit`: returns `Err(Error)` when the data exceeds
`u16::MAX` or the remaining buffer is shorter than `4 + data.len()`. -/
def wEmit (kind : Nat) (data : List Nat) : WriterM := fun cap =>
  if 65535 < data.length then .err
  else if cap < 4 + data.length then .err
  else .ok (cap - (4 + data.length), u16be kind ++ u16be data.length ++ data)

/-- Sequence two writer actions, concatenating their output. -/
def wSeq (f g : WriterM) : WriterM := fun cap =>
  match f cap with
  | .ok (c, b1) =>
    match g c with
    | .ok (c2, b2) => .ok (c2, b1 ++ b2)
    | .err => .err
    | .crash => .crash
  | .err => .err
  | .crash => .crash

/-- The writer action that writes nothing. -/
def wNil : WriterM := fun cap => .ok (cap, [])

/-- Sequence a list of writer actions. -/
def wAll (fs : List WriterM) : WriterM := fs.foldr wSeq wNil

/-- `ReprStatusCode::data_len`. -/
def ReprStatusCode.data_len (s : ReprStatusCode) : Nat :=
  2 + s.status_message.length

/-- `ReprStatusCode::emit`: all four writes are unchecked raw writes. -/
def ReprStatusCode.emit (s : ReprStatusCode) : WriterM :=
  wAll [wRaw (u16be OPT_STATUS_CODE), wRaw (u16be s.data_len),
        wRaw (u16be s.status_code), wRaw s.status_message]

/-- `ReprIaAddr::data_len`. -/
def ReprIaAddr.data_len (a : ReprIaAddr) : Nat :=
  16 + 4 + 4 + (a.additional_options.map (fun o => 4 + o.data.length)).sum

/-- `ReprIaAddr::emit`: writes option code `OPT_IA_PD` (25), the length,
the 16 address bytes (`self.addr.0`; well-formed addresses have exactly 16
bytes), the two lifetimes — all raw — then the additional options through
the checked writer. -/
def ReprIaAddr.emit (a : ReprIaAddr) : WriterM :=
  wAll ([wRaw (u16be OPT_IA_PD), wRaw (u16be a.data_len), wRaw a.addr,
         wRaw (u32be a.preferred_lifetime), wRaw (u32be a.valid_lifetime)]
        ++ a.additional_options.map (fun o => wEmit o.kind o.data))

/-- `ReprIaNa::data_len`. -/
def ReprIaNa.data_len (ia : ReprIaNa) : Nat :=
  4 + 4 + 4 + (ia.addresses.map (fun a => 4 + a.data_len)).sum
  + (match ia.status_code with
     | some s => 4 + s.data_len
     | none => 0)
  + (ia.additional_options.map (fun o => 4 + o.data.length)).sum

/-- `ReprIaNa::emit`: raw header (code 3, length, IAID, T1, T2), then the
addresses, the status code if present, and the additional options. -/
def ReprIaNa.emit (ia : ReprIaNa) : WriterM :=
  wAll ([wRaw (u16be OPT_IA_NA), wRaw (u16be ia.data_len), wRaw (u32be ia.iaid),
         wRaw (u32be ia.t1), wRaw (u32be ia.t2)]
        ++ ia.addresses.map ReprIaAddr.emit
        ++ (match ia.status_code with
            | some s => [s.emit]
            | none => [])
        ++ ia.additional_options.map (fun o => wEmit o.kind o.data))

/-- `ReprIaTa::data_len`. -/
def ReprIaTa.data_len (ia : ReprIaTa) : Nat :=
  4 + (ia.addresses.map (fun a => 4 + a.data_len)).sum
  + (match ia.status_code with
     | some s => 4 + s.data_len
     | none => 0)
  + (ia.additional_options.map (fun o => 4 + o.data.length)).sum

/-- `ReprIaTa::emit`: raw header (code 4, length, IAID), then addresses,
status code, additional options. -/
def ReprIaTa.emit (ia : ReprIaTa) : WriterM :=
  wAll ([wRaw (u16be OPT_IA_TA), wRaw (u16be ia.data_len), wRaw (u32be ia.iaid)]
        ++ ia.addresses.map ReprIaAddr.emit
        ++ (match ia.status_code with
            | some s => [s.emit]
            | none => [])
        ++ ia.additional_options.map (fun o => wEmit o.kind o.data))

/-- `ReprDnsServers::data_len`. -/
def ReprDnsServers.data_len (dns : ReprDnsServers) : Nat :=
  (dns.addresses.map (fun _ => 16)).sum

/-- `ReprDnsServers::emit`: raw header (code 23, length) then each 16-byte
address, all raw writes. -/
def ReprDnsServers.emit (dns : ReprDnsServers) : WriterM :=
  wAll ([wRaw (u16be OPT_DNS_SERVERS), wRaw (u16be dns.data_len)]
        ++ dns.addresses.map wRaw)

/-- The `OPT_ORO` arm of `Repr::emit`: the codes are packed big-endian into
a 32-byte local array (a write past its end — more than 16 codes — would
panic, which the `heapless::Vec<u16, 16>` type rules out in the source)
and emitted through the checked writer. -/
def oroEmit (codes : List Nat) : WriterM := fun cap =>
  if MAX_REQUEST_OPTIONS < codes.length then .crash
  else wEmit OPT_ORO (codes.flatMap u16be) cap

/-- The option-emission pipeline of `Repr::emit`, in source order:
client-id, server-id, elapsed-time, IA_NA, IA_TA, DNS servers,
request-options, additional options. -/
def Repr.optionsEmit (r : Repr) : WriterM :=
  wAll ((match r.client_id with
         | some v => [wEmit OPT_CLIENTID v]
         | none => [])
        ++ (match r.server_id with
            | some v => [wEmit OPT_SERVERID v]
            | none => [])
        ++ (match r.elapsed_time with
            | some v => [wEmit OPT_ELAPSED_TIME (u16be v)]
            | none => [])
        ++ (match r.ia_na with
            | some ia => [ia.emit]
            | none => [])
        ++ (match r.ia_ta with
            | some ia => [ia.emit]
            | none => [])
        ++ (match r.dns_servers with
            | some dns => [dns.emit]
            | none => [])
        ++ (match r.request_options with
            | some ro => [oroEmit ro]
            | none => [])
        ++ r.additional_options.map (fun o => wEmit o.kind o.data))

/-- `Repr::buffer_len`. -/
def Repr.buffer_len (r : Repr) : Nat :=
  4
  + (match r.client_id with
     | some v => 4 + v.length
     | none => 0)
  + (match r.server_id with
     | some v => 4 + v.length
     | none => 0)
  + (match r.elapsed_time with
     | some _ => 4 + 2
     | none => 0)
  + (match r.ia_na with
     | some ia => 4 + ia.data_len
     | none => 0)
  + (match r.ia_ta with
     | some ia => 4 + ia.data_len
     | none => 0)
  + (match r.dns_servers with
     | some dns => 4 + dns.data_len
     | none => 0)
  + (match r.request_options with
     | some ro => 4 + 2 * ro.length
     | none => 0)
  + (r.additional_options.map (fun o => 4 + o.data.length)).sum

/-- `Repr::emit` into a buffer of `cap` bytes: `set_message_type` writes
byte 0 and `set_transaction_id` bytes 1..4 (panicking when the buffer is
shorter than 4), then the options go through the writer over the
remaining `cap - 4` bytes. -/
def Repr.emit (r : Repr) (cap : Nat) : ER (List Nat) :=
  if cap < 4 then .crash
  else
    match r.optionsEmit (cap - 4) with
    | .ok (_, bytes) => .ok (r.message_type % 256 :: u24be r.transaction_id ++ bytes)
    | .err => .err
    | .crash => .crash

/-! ## Client state machine (`src/socket/dhcpv6.rs`)

Time: `Instant` is modelled as `Int` milliseconds and `Duration` as `Nat`
milliseconds, following the `time` module of the repository (not under
`src/`): `Duration::from_secs(s)` is `1000 * s`, `Instant + Duration` adds
milliseconds, and `Duration << k` (used by the exponential backoff;
per the spec, "doubling every 2 retries") multiplies by `2 ^ k`. -/

/-- Message-type wire values (`enum MessageType`). -/
def MSG_SOLICIT : Nat := 1
def MSG_ADVERTISE : Nat := 2
def MSG_REQUEST : Nat := 3
def MSG_CONFIRM : Nat := 4
def MSG_RENEW : Nat := 5
def MSG_DECLINE : Nat := 9

/-- `Duration << k`: shift-left on the millisecond count. -/
def shlDur (d : Nat) (k : Nat) : Nat := d * 2 ^ k

/-- `Ipv6Address::UNSPECIFIED` (`::`). -/
def UNSPECIFIED : List Nat := List.replicate 16 0

/-- `Ipv6Address::LINK_LOCAL_ALL_ROUTERS` (`ff02::2`). -/
def LINK_LOCAL_ALL_ROUTERS : List Nat :=
  [0xff, 2, 0, 0, 0, 0, 0, 0, 0, 0, 0, 0, 0, 0, 0, 2]

/-- `Ipv6Address::is_unicast` (wire `ipv6` module, outside `src/`): not
multicast (first byte `0xff`) and not unspecified (all zero). -/
def isUnicast (a : List Nat) : Bool :=
  ¬(a.headD 0 = 0xff) ∧ ¬(a.all (· = 0))

def MAX_IDENTIFIER_LEN : Nat := 128
def DHCP_MAX_DNS_SERVER_COUNT : Nat := 16
def DHCPV6_SERVER_PORT : Nat := 547
def DHCPV6_CLIENT_PORT : Nat := 546

/-- `NdiscPrefixInformation` from the Router Advertisement; the state
machine consumes only `prefix_len`. -/
structure NdiscPrefixInformation where
  prefix_len : Nat
  deriving DecidableEq, Inhabited

/-- `ServerInfo`. -/
structure ServerInfo where
  address : List Nat
  identifier : List Nat
  deriving DecidableEq, Inhabited

/-- `Config`: the lease configuration handed to the caller.  `address` is
an `Ipv6Cidr`, modelled as the address bytes plus the prefix length. -/
structure Config where
  server : ServerInfo
  address_addr : List Nat
  address_prefix_len : Nat
  router : Option (List Nat)
  dns_servers : List (List Nat)
  packet : Option (List Nat)
  deriving DecidableEq, Inhabited

/-- `RetryConfig` (durations in milliseconds). -/
structure RetryConfig where
  initial_request_timeout : Nat
  request_retries : Nat
  min_renew_timeout : Nat
  deriving DecidableEq, Inhabited

/-- `RetryConfig::default()`: 2 s timeout, 5 retries, 60 s minimum renew. -/
def RetryConfig.default : RetryConfig :=
  { initial_request_timeout := 2000, request_retries := 5, min_renew_timeout := 60000 }

/-- `RouterSolicitState`. -/
structure RouterSolicitState where
  retry_at : Int
  retry : Nat
  deriving DecidableEq, Inhabited

/-- `DhcpSolicitState`. -/
structure DhcpSolicitState where
  client_id : List Nat
  retry_at : Int
  retry : Nat
  mtu : Nat
  prefix_info : NdiscPrefixInformation
  deriving DecidableEq, Inhabited

/-- `DhcpRequestState`. -/
structure DhcpRequestState where
  client_id : List Nat
  retry_at : Int
  retry : Nat
  iaid : Nat
  server : ServerInfo
  requested_ip : List Nat
  mtu : Nat
  prefix_info : NdiscPrefixInformation
  deriving DecidableEq, Inhabited

/-- `DhcpRenewState`.  The source comments that `renew_at` "must be less
or equal than `expires_at`". -/
structure DhcpRenewState where
  config : Config
  client_id : List Nat
  iaid : Nat
  renew_at : Int
  expires_at : Int
  mtu : Nat
  prefix_info : NdiscPrefixInformation
  deriving DecidableEq, Inhabited

/-- `ClientState`. -/
inductive ClientState where
  | routerSolicit : RouterSolicitState → ClientState
  | dhcpSolicit : DhcpSolicitState → ClientState
  | dhcpRequesting : DhcpRequestState → ClientState
  | dhcpRenewing : DhcpRenewState → ClientState
  deriving DecidableEq, Inhabited

/-- `Event`, the return value of `poll`. -/
inductive Event where
  | deconfigured : Event
  | configured : Config → Event
  deriving DecidableEq, Inhabited

/-- `Socket`: the DHCPv6 client socket (waker registration omitted; it
carries no protocol state). -/
structure Socket where
  state : ClientState
  config_changed : Bool
  transaction_id : Nat
  max_lease_duration : Option Nat
  retry_config : RetryConfig
  ignore_naks : Bool
  server_port : Nat
  client_port : Nat
  outgoing_options : List Dhcpv6Option
  parameter_request_list : Option (List Nat)
  receive_packet_buffer : Option (List Nat)
  deriving Inhabited

/-- `Socket::new()`. -/
def Socket.new : Socket :=
  { state := .routerSolicit { retry_at := 0, retry := 0 }
    config_changed := true
    transaction_id := 1
    max_lease_duration := none
    retry_config := RetryConfig.default
    ignore_naks := false
    server_port := DHCPV6_SERVER_PORT
    client_port := DHCPV6_CLIENT_PORT
    outgoing_options := []
    parameter_request_list := none
    receive_packet_buffer := none }

/-- `Socket::reset()`: flag a configuration change when leaving
`DhcpRenewing`, then restart in `RouterSolicit { retry_at: 0, retry: 0 }`. -/
def Socket.reset (s : Socket) : Socket :=
  let s1 :=
    match s.state with
    | .dhcpRenewing _ => { s with config_changed := true }
    | _ => s
  { s1 with state := .routerSolicit { retry_at := 0, retry := 0 } }

/-- `Socket::poll()`: report and clear the `config_changed` flag;
`Configured` carries a copy of the config with `packet` populated from the
receive buffer. -/
def Socket.poll (s : Socket) : Option Event × Socket :=
  if ¬s.config_changed then (none, s)
  else
    match s.state with
    | .dhcpRenewing st =>
      (some (.configured { st.config with packet := s.receive_packet_buffer }),
       { s with config_changed := false })
    | _ => (some .deconfigured, { s with config_changed := false })

/-- `Socket::poll_at`: the earliest instant the socket wants a `dispatch`. -/
def Socket.poll_at (s : Socket) : Int :=
  match s.state with
  | .routerSolicit st => st.retry_at
  | .dhcpSolicit st => st.retry_at
  | .dhcpRequesting st => st.retry_at
  | .dhcpRenewing st => min st.renew_at st.expires_at

/-- The DNS-server collection in `parse_ack`: every address of the (at
most one) DNS-servers option that is unicast, pushed into a bounded
vector with overflow dropped. -/
def collectDns (dns_servers : Option ReprDnsServers) : List (List Nat) :=
  (match dns_servers with
   | some dns => dns.addresses
   | none => []).filter isUnicast
  |>.foldl (pushCap DHCP_MAX_DNS_SERVER_COUNT) []

/-- `Socket::parse_ack`: reject an empty IA_NA or a non-`Success` status
code; `lease_duration = T1 seconds` clamped to `max_lease_duration`;
`renew_at = now + T2 seconds`; `expires_at = now + lease_duration`. -/
def parse_ack (now : Int) (src_ip : List Nat) (dhcp_repr : Repr)
    (max_lease_duration : Option Nat) (server : ServerInfo) (ia_na : ReprIaNa)
    (prefix_info : NdiscPrefixInformation) : Option (Config × Int × Int) :=
  if ia_na.addresses.isEmpty then none
  else if (match ia_na.status_code with
           | some sc => sc.status_code
           | none => 0) ≠ 0 then none
  else
    let your_addr := (ia_na.addresses.headD default).addr
    let lease0 := 1000 * ia_na.t1
    let lease_duration :=
      match max_lease_duration with
      | some m => min lease0 m
      | none => lease0
    let config : Config :=
      { server := server
        address_addr := your_addr
        address_prefix_len := prefix_info.prefix_len
        router := some src_ip
        dns_servers := collectDns dhcp_repr.dns_servers
        packet := none }
    let renew_at := now + (1000 * ia_na.t2 : Nat)
    let expires_at := now + lease_duration
    some (config, renew_at, expires_at)

/-- `Ipv6Repr` (fields consumed here). -/
structure Ipv6ReprM where
  src_addr : List Nat
  dst_addr : List Nat
  next_header : Nat
  payload_len : Nat
  hop_limit : Nat
  deriving DecidableEq, Inhabited

/-- `UdpRepr`. -/
structure UdpReprM where
  src_port : Nat
  dst_port : Nat
  deriving DecidableEq, Inhabited

/-- IP protocol numbers (`IpProtocol::Udp`, `IpProtocol::Icmpv6`). -/
def PROTO_UDP : Nat := 17
def PROTO_ICMPV6 : Nat := 58

/-- `UdpRepr::header_len()`: the 8-byte UDP header. -/
def udpHeaderLen : Nat := 8

/-- Modelled from the spec: the on-wire length of the emitted ICMPv6
Router Solicitation (RFC 4861 §4.1: 8-byte message plus the 8-byte
source link-layer address option); `Icmpv6Repr::buffer_len` lives in the
wire `icmpv6` module, outside `src/`.  Only `payload_len` consumes it. -/
def routerSolicitBufferLen : Nat := 16

/-- The outbound Router Solicitation (`Icmpv6Repr::Ndisc(RouterSolicit)`). -/
structure NdiscRouterSolicit where
  lladdr : Option (List Nat)
  deriving DecidableEq, Inhabited

/-- `DispatchEmit`: the envelope handed to the emit callback. -/
inductive DispatchEmit where
  | icmp : Ipv6ReprM → NdiscRouterSolicit → DispatchEmit
  | dhcp : Ipv6ReprM → UdpReprM → Repr → DispatchEmit
  deriving DecidableEq, Inhabited

/-- Result of a `dispatch` call: the socket afterwards, the envelope
passed to the emit callback (if it was invoked), and the propagated
callback error (if the callback failed). -/
structure DispatchResult (E : Type) where
  socket : Socket
  sent : Option DispatchEmit
  error : Option E

/-- `Socket::dispatch`.  `now` is `cx.now()`, `ethernet_addr` the
interface hardware address, `next_transaction_id` the freshly drawn PRNG
value, and `emit m = some e` means the callback returned `Err(e)`.
`self.transaction_id` is written only after the callback succeeds. -/
def Socket.dispatch (s : Socket) (now : Int) (ethernet_addr : List Nat)
    (next_transaction_id : Nat) (emit : DispatchEmit → Option E) : DispatchResult E :=
  let dhcp_repr : Repr :=
    { message_type := MSG_SOLICIT
      transaction_id := next_transaction_id
      client_id := some ethernet_addr
      server_id := none
      elapsed_time := none
      request_options := some [OPT_DNS_SERVERS]
      ia_na := none
      ia_ta := none
      dns_servers := none
      additional_options := [] }
  let udp_repr : UdpReprM := { src_port := s.client_port, dst_port := s.server_port }
  let ipv6_repr : Ipv6ReprM :=
    { src_addr := UNSPECIFIED
      dst_addr := LINK_LOCAL_ALL_ROUTERS
      next_header := PROTO_UDP
      payload_len := 0
      hop_limit := 64 }
  match s.state with
  | .routerSolicit st =>
    if now < st.retry_at then { socket := s, sent := none, error := none }
    else
      let icmp_repr : NdiscRouterSolicit := { lladdr := some ethernet_addr }
      let rs_ipv6 : Ipv6ReprM :=
        { src_addr := UNSPECIFIED
          dst_addr := LINK_LOCAL_ALL_ROUTERS
          next_header := PROTO_ICMPV6
          payload_len := routerSolicitBufferLen
          hop_limit := 64 }
      let msg := DispatchEmit.icmp rs_ipv6 icmp_repr
      match emit msg with
      | some e => { socket := s, sent := some msg, error := some e }
      | none =>
        { socket :=
            { s with
              state := .routerSolicit
                { retry_at := now
                    + (shlDur s.retry_config.initial_request_timeout (min st.retry 16 / 2) : Nat)
                  retry := st.retry + 1 }
              transaction_id := next_transaction_id }
          sent := some msg
          error := none }
  | .dhcpSolicit st =>
    if now < st.retry_at then { socket := s, sent := none, error := none }
    else
      let msg := DispatchEmit.dhcp
        { ipv6_repr with payload_len := udpHeaderLen + dhcp_repr.buffer_len }
        udp_repr dhcp_repr
      match emit msg with
      | some e => { socket := s, sent := some msg, error := some e }
      | none =>
        { socket :=
            { s with
              state := .dhcpSolicit
                { st with
                  retry_at := now
                    + (shlDur s.retry_config.initial_request_timeout (min st.retry 16 / 2) : Nat)
                  retry := st.retry + 1 }
              transaction_id := next_transaction_id }
          sent := some msg
          error := none }
  | .dhcpRequesting st =>
    if now < st.retry_at then { socket := s, sent := none, error := none }
    else if s.retry_config.request_retries ≤ st.retry then
      { socket := s.reset, sent := none, error := none }
    else
      let addresses := pushCap MAX_IA_ADDRESSES []
        ({ addr := st.requested_ip, preferred_lifetime := 604800
           valid_lifetime := 2592000, additional_options := [] } : ReprIaAddr)
      let req_repr : Repr :=
        { dhcp_repr with
          message_type := MSG_REQUEST
          server_id := some st.server.identifier
          ia_na := some
            { iaid := st.iaid, t1 := 0, t2 := 0, addresses := addresses
              status_code := none, additional_options := [] } }
      let msg := DispatchEmit.dhcp
        { ipv6_repr with payload_len := udpHeaderLen + req_repr.buffer_len }
        udp_repr req_repr
      match emit msg with
      | some e => { socket := s, sent := some msg, error := some e }
      | none =>
        { socket :=
            { s with
              state := .dhcpRequesting
                { st with
                  retry_at := now
                    + (shlDur s.retry_config.initial_request_timeout (min st.retry 16 / 2) : Nat)
                  retry := st.retry + 1 }
              transaction_id := next_transaction_id }
          sent := some msg
          error := none }
  | .dhcpRenewing st =>
    if st.expires_at ≤ now then
      { socket := s.reset, sent := none, error := none }
    else if now < st.renew_at then { socket := s, sent := none, error := none }
    else
      let addresses := pushCap MAX_IA_ADDRESSES []
        ({ addr := st.config.address_addr, preferred_lifetime := 604800
           valid_lifetime := 2592000, additional_options := [] } : ReprIaAddr)
      let renew_repr : Repr :=
        { dhcp_repr with
          message_type := MSG_REQUEST
          server_id := some st.config.server.identifier
          ia_na := some
            { iaid := st.iaid, t1 := 0, t2 := 0, addresses := addresses
              status_code := none, additional_options := [] } }
      let renew_ipv6 : Ipv6ReprM :=
        { ipv6_repr with
          src_addr := st.config.address_addr
          dst_addr := st.config.server.address
          payload_len := udpHeaderLen + renew_repr.buffer_len }
      let msg := DispatchEmit.dhcp renew_ipv6 udp_repr renew_repr
      match emit msg with
      | some e => { socket := s, sent := some msg, error := some e }
      | none =>
        { socket :=
            { s with
              state := .dhcpRenewing
                { st with
                  renew_at := now
                    + (max s.retry_config.min_renew_timeout ((st.expires_at - now).toNat / 2) : Nat) }
              transaction_id := next_transaction_id }
          sent := some msg
          error := none }

/-- The receive-buffer copy in `process_udp`/`process_icmpv6`: when a
buffer is registered and the payload fits
(`buffer.get_mut(..payload.len())`), overwrite its first `payload.len()`
bytes. -/
def copyIn (s : Socket) (payload : List Nat) : Socket :=
  match s.receive_packet_buffer with
  | some buf =>
    if payload.length ≤ buf.length then
      { s with receive_packet_buffer := some (payload ++ buf.drop payload.length) }
    else s
  | none => s

/-- The inbound ICMPv6 messages the socket distinguishes: a Router
Advertisement (with the consumed fields) or anything else. -/
inductive Icmpv6InRepr where
  | routerAdvert : (managed : Bool) → (mtu : Option Nat) →
      (prefix_info : Option NdiscPrefixInformation) → Icmpv6InRepr
  | other : Icmpv6InRepr
  deriving DecidableEq, Inhabited

/-- `Socket::process_icmpv6`: copy the payload into the receive buffer,
then — only in `RouterSolicit` — react to a Router Advertisement: the
MANAGED flag, an MTU option and a prefix-information option are all
required to move to `DhcpSolicit` with a fresh `rand_uuid` client id. -/
def Socket.process_icmpv6 (s : Socket) (rand_uuid : List Nat)
    (repr : Icmpv6InRepr) (payload : List Nat) : Socket :=
  let s := copyIn s payload
  match s.state, repr with
  | .routerSolicit _, .routerAdvert managed mtu prefix_info =>
    if managed then
      match mtu with
      | none => s
      | some m =>
        match prefix_info with
        | some pi =>
          { s with
            state := .dhcpSolicit
              { client_id := vecFromCap MAX_IDENTIFIER_LEN rand_uuid
                retry_at := 0, retry := 0, mtu := m, prefix_info := pi } }
        | none => s
    else s
  | _, _ => s

/-- The state-machine match at the tail of `Socket::process_udp`, entered
only after the transaction-id and server-id checks and the receive-buffer
copy.  `now` is `cx.now()` and `src_ip` the IPv6 source address. -/
def Socket.processUdpInner (s : Socket) (now : Int) (src_ip : List Nat)
    (dhcp_repr : Repr) : Socket :=
  match s.state, dhcp_repr.message_type with
  | .routerSolicit _, _ => s
  | .dhcpSolicit st, 2 =>
    match dhcp_repr.ia_na with
    | none => s
    | some ia_na =>
      if ia_na.addresses.isEmpty then s
      else
        match dhcp_repr.client_id with
        | some c =>
          if c = st.client_id then
            match dhcp_repr.server_id with
            | some sid =>
              { s with
                state := .dhcpRequesting
                  { client_id := vecFromCap MAX_IDENTIFIER_LEN st.client_id
                    retry_at := now
                    retry := 0
                    server := { address := src_ip
                                identifier := vecFromCap MAX_IDENTIFIER_LEN sid }
                    requested_ip := (ia_na.addresses.headD default).addr
                    mtu := st.mtu
                    iaid := ia_na.iaid
                    prefix_info := st.prefix_info } }
            | none => s
          else s
        | none => s
  | .dhcpRequesting st, 4 =>
    match dhcp_repr.ia_na with
    | none => s
    | some ia_na =>
      if dhcp_repr.client_id = some st.client_id then
        if dhcp_repr.server_id = some st.server.identifier then
          match parse_ack now src_ip dhcp_repr s.max_lease_duration st.server ia_na
              st.prefix_info with
          | some (config, renew_at, expires_at) =>
            { s with
              state := .dhcpRenewing
                { client_id := vecFromCap MAX_IDENTIFIER_LEN st.client_id
                  iaid := st.iaid
                  config := config
                  renew_at := renew_at
                  expires_at := expires_at
                  mtu := st.mtu
                  prefix_info := st.prefix_info }
              config_changed := true }
          | none => s
        else s
      else s
  | .dhcpRequesting _, 9 =>
    if ¬s.ignore_naks then s.reset else s
  | .dhcpRenewing st, 4 =>
    match dhcp_repr.ia_na with
    | none => s
    | some ia_na =>
      if dhcp_repr.client_id = some st.client_id then
        if dhcp_repr.server_id = some st.config.server.identifier then
          match parse_ack now src_ip dhcp_repr s.max_lease_duration
              st.config.server ia_na st.prefix_info with
          | some (config, renew_at, expires_at) =>
            let changed := st.config ≠ config ∨ s.receive_packet_buffer.isSome
            { s with
              state := .dhcpRenewing
                { st with renew_at := renew_at, expires_at := expires_at
                          config := config }
              config_changed := s.config_changed ∨ changed }
          | none => s
        else s
      else s
  | .dhcpRenewing _, 9 =>
    if ¬s.ignore_naks then s.reset else s
  | _, _ => s

/-- `Socket::process_udp`: the port `assert!` panics on a violated
pre-filter; a packet shorter than 4 bytes (`new_checked`) or one
`Repr::parse` rejects is dropped; a transaction-id mismatch or a missing
server identifier drops the packet BEFORE the receive-buffer copy; then
the payload is copied and the state machine runs. -/
def Socket.process_udp (s : Socket) (now : Int) (src_ip : List Nat)
    (udp_src udp_dst : Nat) (payload : List Nat) : ER Socket :=
  if ¬(udp_src = s.server_port ∧ udp_dst = s.client_port) then .crash
  else if payload.length < 4 then .ok s
  else
    match Repr.parse payload with
    | .err => .ok s
    | .crash => .crash
    | .ok dhcp_repr =>
      if dhcp_repr.transaction_id ≠ s.transaction_id then .ok s
      else
        match dhcp_repr.server_id with
        | none => .ok s
        | some _ =>
          let s := copyIn s payload
          .ok (s.processUdpInner now src_ip dhcp_repr)

/-! ## Emitted byte images and validity

`…Bytes` gives the byte string each emitter produces when the buffer is
large enough; the `…Valid` predicates collect the side conditions under
which the Rust emitters cannot fail for capacity-independent reasons
(data within `u16` bounds, 16-byte addresses, bounded code lists). -/

/-- Bytes of one checked-writer option: code, length, data. -/
def optBytes (o : Dhcpv6Option) : List Nat :=
  u16be o.kind ++ u16be o.data.length ++ o.data

/-- Bytes produced by `ReprStatusCode::emit`. -/
def statusBytes (s : ReprStatusCode) : List Nat :=
  u16be OPT_STATUS_CODE ++ u16be s.data_len ++ u16be s.status_code ++ s.status_message

/-- Bytes produced by `ReprIaAddr::emit`. -/
def iaAddrBytes (a : ReprIaAddr) : List Nat :=
  u16be OPT_IA_PD ++ u16be a.data_len ++ a.addr
  ++ u32be a.preferred_lifetime ++ u32be a.valid_lifetime
  ++ (a.additional_options.map optBytes).flatten

/-- Bytes produced by `ReprIaNa::emit`. -/
def iaNaBytes (ia : ReprIaNa) : List Nat :=
  u16be OPT_IA_NA ++ u16be ia.data_len ++ u32be ia.iaid ++ u32be ia.t1 ++ u32be ia.t2
  ++ (ia.addresses.map iaAddrBytes).flatten
  ++ (match ia.status_code with
      | some s => statusBytes s
      | none => [])
  ++ (ia.additional_options.map optBytes).flatten

/-- Bytes produced by `ReprIaTa::emit`. -/
def iaTaBytes (ia : ReprIaTa) : List Nat :=
  u16be OPT_IA_TA ++ u16be ia.data_len ++ u32be ia.iaid
  ++ (ia.addresses.map iaAddrBytes).flatten
  ++ (match ia.status_code with
      | some s => statusBytes s
      | none => [])
  ++ (ia.additional_options.map optBytes).flatten

/-- Bytes produced by `ReprDnsServers::emit`. -/
def dnsBytes (dns : ReprDnsServers) : List Nat :=
  u16be OPT_DNS_SERVERS ++ u16be dns.data_len ++ dns.addresses.flatten

/-- Bytes produced by the option pipeline of `Repr::emit`. -/
def reprOptionBytes (r : Repr) : List Nat :=
  (match r.client_id with
   | some v => optBytes ⟨OPT_CLIENTID, v⟩
   | none => [])
  ++ (match r.server_id with
      | some v => optBytes ⟨OPT_SERVERID, v⟩
      | none => [])
  ++ (match r.elapsed_time with
      | some v => optBytes ⟨OPT_ELAPSED_TIME, u16be v⟩
      | none => [])
  ++ (match r.ia_na with
      | some ia => iaNaBytes ia
      | none => [])
  ++ (match r.ia_ta with
      | some ia => iaTaBytes ia
      | none => [])
  ++ (match r.dns_servers with
      | some dns => dnsBytes dns
      | none => [])
  ++ (match r.request_options with
      | some ro => optBytes ⟨OPT_ORO, ro.flatMap u16be⟩
      | none => [])
  ++ (r.additional_options.map optBytes).flatten

/-- The full packet image of `Repr::emit`. -/
def reprBytes (r : Repr) : List Nat :=
  r.message_type % 256 :: u24be r.transaction_id ++ reprOptionBytes r

/-- An option acceptable to `Dhcpv6OptionWriter::emit`. -/
def OptValid (o : Dhcpv6Option) : Prop := o.data.length ≤ 65535

/-- A well-formed IA address: a 16-byte address and writable options. -/
def IaAddrValid (a : ReprIaAddr) : Prop :=
  a.addr.length = 16 ∧ ∀ o ∈ a.additional_options, OptValid o

/-- A well-formed IA_NA. -/
def IaNaValid (ia : ReprIaNa) : Prop :=
  (∀ a ∈ ia.addresses, IaAddrValid a) ∧ ∀ o ∈ ia.additional_options, OptValid o

/-- A well-formed IA_TA. -/
def IaTaValid (ia : ReprIaTa) : Prop :=
  (∀ a ∈ ia.addresses, IaAddrValid a) ∧ ∀ o ∈ ia.additional_options, OptValid o

/-- Well-formed DNS servers: 16-byte addresses. -/
def DnsValid (dns : ReprDnsServers) : Prop :=
  ∀ a ∈ dns.addresses, a.length = 16

/-- An absent identifier, or one whose length fits in a `u16`. -/
def IdValidO : Option (List Nat) → Prop
  | some v => v.length ≤ 65535
  | none => True

/-- An absent or well-formed IA_NA. -/
def IaNaValidO : Option ReprIaNa → Prop
  | some ia => IaNaValid ia
  | none => True

/-- An absent or well-formed IA_TA. -/
def IaTaValidO : Option ReprIaTa → Prop
  | some ia => IaTaValid ia
  | none => True

/-- An absent or well-formed DNS-servers option. -/
def DnsValidO : Option ReprDnsServers → Prop
  | some dns => DnsValid dns
  | none => True

/-- An absent request-option list, or one within the `Vec<u16, 16>` bound. -/
def RoValidO : Option (List Nat) → Prop
  | some ro => ro.length ≤ MAX_REQUEST_OPTIONS
  | none => True

/-- The singleton-or-empty segment an optional field contributes to the
emission pipeline's byte image. -/
def segBytes {α : Type} (o : Option α) (f : α → List Nat) : List (List Nat) :=
  match o with
  | some a => [f a]
  | none => []

/-- The length an optional field contributes to `buffer_len`. -/
def segLenVal {α : Type} (o : Option α) (g : α → Nat) : Nat :=
  match o with
  | some a => g a
  | none => 0

def ReprValid (r : Repr) : Prop :=
  IdValidO r.client_id
  ∧ IdValidO r.server_id
  ∧ IaNaValidO r.ia_na
  ∧ IaTaValidO r.ia_ta
  ∧ DnsValidO r.dns_servers
  ∧ RoValidO r.request_options
  ∧ ∀ o ∈ r.additional_options, OptValid o

/-- A writer action that, on any capacity at least `bytes.length`,
consumes exactly `bytes.length` and outputs `bytes`; on any smaller
capacity it fails (errors or panics). -/
def WExact (f : WriterM) (bytes : List Nat) : Prop :=
  (∀ cap, bytes.length ≤ cap → f cap = .ok (cap - bytes.length, bytes))
  ∧ ∀ cap, cap < bytes.length → ∀ c b, f cap ≠ .ok (c, b)

/-! ## Test fixtures (concrete values used by the claim theorems) -/

/-- An emit callback that always succeeds. -/
def emitOk : DispatchEmit → Option Unit := fun _ => none

/-- An emit callback that always fails. -/
def emitFail : DispatchEmit → Option Unit := fun _ => some ()

/-- A sample interface hardware address. -/
def ethAddr : List Nat := [2, 0, 0, 0, 0, 1]

/-- The leased address `2001:db8::1000` as bytes. -/
def leasedAddr : List Nat :=
  [0x20, 1, 0xd, 0xb8, 0, 0, 0, 0, 0, 0, 0, 0, 0, 0, 0x10, 0]

/-- The server's unicast address `2001:db8::1` as bytes. -/
def serverAddr : List Nat :=
  [0x20, 1, 0xd, 0xb8, 0, 0, 0, 0, 0, 0, 0, 0, 0, 0, 0, 1]

/-- A sample latched server. -/
def sampleServer : ServerInfo := { address := serverAddr, identifier := [0, 1, 0, 2] }

/-- A sample lease configuration. -/
def sampleConfig : Config :=
  { server := sampleServer
    address_addr := leasedAddr
    address_prefix_len := 64
    router := some serverAddr
    dns_servers := []
    packet := none }

/-- A socket sitting in `DhcpRenewing` with `renew_at = 1000 ms` and
`expires_at = 500000 ms`. -/
def renewSocket : Socket :=
  { Socket.new with
    state := .dhcpRenewing
      { config := sampleConfig
        client_id := [1, 2, 3]
        iaid := 0x1234
        renew_at := 1000
        expires_at := 500000
        mtu := 1500
        prefix_info := { prefix_len := 64 } } }

/-- A `Repr` whose only option is an ORO with the two codes 23, 24. -/
def oroRepr : Repr :=
  { message_type := 1
    transaction_id := 5
    client_id := none
    server_id := none
    elapsed_time := none
    request_options := some [23, 24]
    ia_na := none
    ia_ta := none
    dns_servers := none
    additional_options := [] }

/-- The IA_NA of a server Confirm carrying `T1 = 3600`, `T2 = 5760` and
one address. -/
def ackIaNa : ReprIaNa :=
  { iaid := 0x1234
    t1 := 3600
    t2 := 5760
    addresses := [{ addr := leasedAddr, preferred_lifetime := 0
                    valid_lifetime := 0, additional_options := [] }]
    status_code := none
    additional_options := [] }

/-- A Confirm `Repr` carrying `ackIaNa` and nothing else of interest. -/
def confirmRepr : Repr :=
  { message_type := MSG_CONFIRM
    transaction_id := 1
    client_id := none
    server_id := none
    elapsed_time := none
    request_options := none
    ia_na := some ackIaNa
    ia_ta := none
    dns_servers := none
    additional_options := [] }

/-- A fresh socket with a 16-byte receive-packet buffer full of 9s
(stored `transaction_id` is 1, from `Socket::new`). -/
def udpSocket : Socket :=
  { Socket.new with receive_packet_buffer := some (List.replicate 16 9) }

/-- The parse of `[4, 0,0,1, 0,2,0,1, 7]`: a Confirm with transaction id
1 and server id `[7]`. -/
def confirmXid1 : Repr :=
  { message_type := 4
    transaction_id := 1
    client_id := none
    server_id := some [7]
    elapsed_time := none
    request_options := none
    ia_na := none
    ia_ta := none
    dns_servers := none
    additional_options := [] }

/-- A socket freshly arrived in `DhcpSolicit` (retry 0, retry_at 0). -/
def solicitSocket : Socket :=
  { Socket.new with
    state := .dhcpSolicit
      { client_id := [9], retry_at := 0, retry := 0, mtu := 1500
        prefix_info := { prefix_len := 64 } } }

/-- `K` consecutive dispatches, each performed exactly at the pending
`retry_at` (i.e. at `poll_at`) with a succeeding emit callback and no
inbound traffic in between. -/
def solicitIter (s : Socket) (eth : List Nat) (xid : Nat) : Nat → Socket
  | 0 => s
  | k + 1 =>
    let s' := solicitIter s eth xid k
    (s'.dispatch s'.poll_at eth xid emitOk).socket

/-- `Σ_{i ∈ [0,K)} timeout << ⌊i/2⌋` (milliseconds). -/
def backoffSum (timeout : Nat) (K : Nat) : Nat :=
  ((List.range K).map fun i => shlDur timeout (i / 2)).sum

/-- A `Repr` whose only option is an (empty) IA_NA: its nested emit
bypasses the checked option writer. -/
def iaNaOnlyRepr : Repr :=
  { message_type := 3
    transaction_id := 1
    client_id := none
    server_id := none
    elapsed_time := none
    request_options := none
    ia_na := some { iaid := 7, t1 := 1, t2 := 2, addresses := []
                    status_code := none, additional_options := [] }
    ia_ta := none
    dns_servers := none
    additional_options := [] }

/-- The addresses a nested IA option stream contributes: the payload of
each code-25 (`OPT_IA_PD`) option parsed as an IA address, collected with
the 16-address cap. -/
def iaAddrsOfOptions (opts : List Dhcpv6Option) (acc : List ReprIaAddr) : List ReprIaAddr :=
  (opts.filter fun o => o.kind = OPT_IA_PD).foldl
    (fun acc o =>
      match ReprIaAddr.parse o.data with
      | .ok a => pushCap MAX_IA_ADDRESSES acc a
      | .err => acc
      | .crash => acc) acc

/-- The all-zero IA address. -/
def addr0 : ReprIaAddr :=
  { addr := List.replicate 16 0, preferred_lifetime := 0, valid_lifetime := 0
    additional_options := [] }

/-- IA_NA option data carrying one nested code-25 address option. -/
def iaNaData25 : List Nat := List.replicate 12 0 ++ [0, 25, 0, 24] ++ List.replicate 24 0

/-- The parse of `iaNaData25`. -/
def iaNaFrom25 : ReprIaNa :=
  { iaid := 0, t1 := 0, t2 := 0, addresses := [addr0], status_code := none
    additional_options := [] }

/-- IA_NA option data whose only nested option has the RFC 8415
IA-address code 5. -/
def iaNaData5 : List Nat := List.replicate 12 0 ++ [0, 5, 0, 24] ++ List.replicate 24 0

/-- The parse of `iaNaData5`: no addresses. -/
def iaNaFrom5 : ReprIaNa :=
  { iaid := 0, t1 := 0, t2 := 0, addresses := [], status_code := none
    additional_options := [] }

/-! ## Claims -/

/-- Claim C1.  The spec claims `parse(emit(r))` recovers the
`request_options` (ORO) list exactly, with the same codes in the same
order.  The source emits two bytes per code but parses the ORO data in
4-byte chunks, keeping only the first two bytes of each chunk, so a
round trip of the two codes `[23, 24]` returns `[23]`: the emitted ORO
data is `[0, 23, 0, 24]` and parsing it back loses the second code. -/
theorem C1_oro_roundtrip_loses_codes :
    Repr.emit oroRepr oroRepr.buffer_len
      = .ok [1, 0, 0, 5, 0, 6, 0, 4, 0, 23, 0, 24]
    ∧ Repr.parse [1, 0, 0, 5, 0, 6, 0, 4, 0, 23, 0, 24]
      = .ok { oroRepr with request_options := some [23] }
    ∧ some [23] ≠ oroRepr.request_options := by
  refine ⟨rfl, rfl, ?_⟩
  decide

/-- Claim C2.  The spec claims `renew_at ≤ expires_at` holds in
`DhcpRenewing` for every server-supplied T1 and T2 — but `parse_ack`
computes `renew_at = now + T2` and `expires_at = now + T1` (clamped), so
any reply with `T1 < T2` (the normal RFC 8415 configuration, e.g.
`T1 = 3600`, `T2 = 5760`) enters `DhcpRenewing` with
`expires_at < renew_at`, contradicting the source's own invariant comment
on `DhcpRenewState::renew_at`. -/
theorem C2_renew_at_exceeds_expires_at :
    parse_ack 0 serverAddr confirmRepr none sampleServer ackIaNa ⟨64⟩
      = some (sampleConfig, 5760000, 3600000)
    ∧ (3600000 : Int) < 5760000 := by
  refine ⟨rfl, ?_⟩
  decide

/-- Claim C4.  The spec claims parsing is total on any buffer of length
at least 4 and never panics.  Three concrete ≥4-byte packets on which the
code panics (out-of-bounds slice index): an IA_NA option with empty data
(reading the IAID needs 12 bytes), an IA_NA whose nested code-25 address
option has data shorter than 24 bytes, and an ORO option of data length
1 (the final 1-byte chunk panics inside `read_u16`). -/
theorem C4_parse_panics_on_malformed_options :
    Repr.parse [1, 0, 0, 1, 0, 3, 0, 0] = .crash
    ∧ Repr.parse ([1, 0, 0, 1, 0, 3, 0, 16] ++ List.replicate 12 0 ++ [0, 25, 0, 0])
      = .crash
    ∧ Repr.parse [1, 0, 0, 1, 0, 6, 0, 1, 0] = .crash := by
  refine ⟨rfl, ?_, rfl⟩
  decide

/-- Claim C3.  The spec claims the `DhcpRenewing` dispatch (with
`renew_at ≤ now < expires_at`) emits a message of type Renew (wire value
5).  The source addresses it correctly (leased address as source, server
unicast as destination) — and even logs "send RENEW" — but sets
`message_type = MessageType::Request` (wire value 3). -/
theorem C3_renew_dispatch_sends_request_not_renew :
    ∃ ip udp msg,
      (renewSocket.dispatch 2000 ethAddr 42 emitOk).sent = some (.dhcp ip udp msg)
      ∧ msg.message_type = MSG_REQUEST
      ∧ MSG_REQUEST = 3
      ∧ MSG_RENEW = 5
      ∧ msg.message_type ≠ MSG_RENEW
      ∧ ip.src_addr = leasedAddr
      ∧ ip.dst_addr = serverAddr := by
  refine ⟨_, _, _, rfl, rfl, rfl, rfl, ?_, rfl, rfl⟩
  decide

/-- Claim C5.  In `DhcpRenewing` with `expires_at = t_exp`, a `dispatch`
at `now ≥ t_exp` resets to `RouterSolicit { retry_at = 0, retry = 0 }`,
sets `config_changed`, returns `Ok` without invoking the emit callback,
and the next `poll()` reports `Deconfigured` (clearing the flag). -/
theorem C5_lease_expiry_deconfigures {E : Type} (s : Socket) (st : DhcpRenewState)
    (now : Int) (eth : List Nat) (xid : Nat) (emit : DispatchEmit → Option E)
    (hs : s.state = .dhcpRenewing st) (h : st.expires_at ≤ now) :
    (s.dispatch now eth xid emit).socket.state
        = .routerSolicit { retry_at := 0, retry := 0 }
    ∧ (s.dispatch now eth xid emit).socket.config_changed = true
    ∧ (s.dispatch now eth xid emit).sent = none
    ∧ (s.dispatch now eth xid emit).error = none
    ∧ ((s.dispatch now eth xid emit).socket.poll).1 = some .deconfigured
    ∧ ((s.dispatch now eth xid emit).socket.poll).2.config_changed = false := by
  unfold Socket.dispatch
  rw [hs]
  simp only [if_pos h, Socket.reset, hs, Socket.poll]
  simp

/-- Witness for C5: the sample renewing socket (`expires_at = 500000`)
dispatched at `now = 600000`. -/
theorem C5_lease_expiry_witness :
    (renewSocket.dispatch 600000 ethAddr 42 emitOk).socket.state
        = .routerSolicit { retry_at := 0, retry := 0 }
    ∧ (renewSocket.dispatch 600000 ethAddr 42 emitOk).socket.config_changed = true
    ∧ (renewSocket.dispatch 600000 ethAddr 42 emitOk).sent = none
    ∧ (renewSocket.dispatch 600000 ethAddr 42 emitOk).error = none
    ∧ ((renewSocket.dispatch 600000 ethAddr 42 emitOk).socket.poll).1
        = some .deconfigured
    ∧ ((renewSocket.dispatch 600000 ethAddr 42 emitOk).socket.poll).2.config_changed
        = false :=
  C5_lease_expiry_deconfigures renewSocket _ 600000 ethAddr 42 emitOk rfl (by decide)

/-- `reset` never touches the stored transaction id. -/
theorem reset_transaction_id (s : Socket) : s.reset.transaction_id = s.transaction_id := by
  rcases s with ⟨st, c, t, m, r, i, sp, cp, o, p, b⟩
  cases st <;> rfl

/-- Claim C6.  Within a single `dispatch`, `transaction_id` becomes the
freshly drawn PRNG value exactly when the emit callback was invoked and
succeeded; when the callback fails, its error is propagated and the
socket — state variant, retry counter, `retry_at`, `transaction_id` — is
left entirely unchanged. -/
theorem C6_transaction_id_iff_emit_ok {E : Type} (s : Socket) (now : Int)
    (eth : List Nat) (xid : Nat) (emit : DispatchEmit → Option E) :
    (((s.dispatch now eth xid emit).sent.isSome
        ∧ (s.dispatch now eth xid emit).error = none) →
      (s.dispatch now eth xid emit).socket.transaction_id = xid)
    ∧ (¬((s.dispatch now eth xid emit).sent.isSome
          ∧ (s.dispatch now eth xid emit).error = none) →
      (s.dispatch now eth xid emit).socket.transaction_id = s.transaction_id)
    ∧ ∀ e, (s.dispatch now eth xid emit).error = some e →
        (s.dispatch now eth xid emit).socket = s
        ∧ ∃ m, (s.dispatch now eth xid emit).sent = some m ∧ emit m = some e := by
  unfold Socket.dispatch
  cases s.state <;> dsimp only <;> (repeat' split) <;>
    simp_all [reset_transaction_id]

/-- Witness for C6: the sample renewing socket at `now = 2000`; with a
succeeding callback the transaction id becomes the fresh value 42, with
a failing callback the socket is unchanged. -/
theorem C6_transaction_id_witness :
    (renewSocket.dispatch 2000 ethAddr 42 emitOk).socket.transaction_id = 42
    ∧ (renewSocket.dispatch 2000 ethAddr 42 emitFail).socket = renewSocket :=
  ⟨(C6_transaction_id_iff_emit_ok renewSocket 2000 ethAddr 42 emitOk).1 (by decide),
   ((C6_transaction_id_iff_emit_ok renewSocket 2000 ethAddr 42 emitFail).2.2 ()
      (by decide)).1⟩

/-- A `DhcpSolicit` dispatch at `retry_at ≤ now` with a succeeding emit
callback: `retry_at` and `retry` advance per the backoff formula and the
transaction id is updated. -/
theorem dispatch_solicit_ok (s : Socket) (st : DhcpSolicitState) (now : Int)
    (eth : List Nat) (xid : Nat) (hs : s.state = .dhcpSolicit st)
    (hnow : st.retry_at ≤ now) :
    (s.dispatch now eth xid emitOk).socket
      = { s with
          state := .dhcpSolicit
            { st with
              retry_at := now
                + (shlDur s.retry_config.initial_request_timeout (min st.retry 16 / 2) : Nat)
              retry := st.retry + 1 }
          transaction_id := xid } := by
  unfold Socket.dispatch
  rw [hs]
  simp [emitOk, not_lt.mpr hnow]

/-- Peeling one term off the backoff sum. -/
theorem backoffSum_succ (c K : Nat) :
    backoffSum c (K + 1) = backoffSum c K + shlDur c (K / 2) := by
  simp [backoffSum, List.range_succ]

/-- Iterating the `DhcpSolicit` dispatch exactly at each pending
`retry_at`: after `K ≤ 18` rounds, `retry_at` has accumulated the
backoff sum and `retry = K` (only the state and the transaction id of
the socket have changed). -/
theorem solicitIter_eq (s : Socket) (st0 : DhcpSolicitState) (eth : List Nat) (xid : Nat)
    (hs : s.state = .dhcpSolicit st0) (h0 : st0.retry = 0) :
    ∀ K, K ≤ 18 → ∃ t, solicitIter s eth xid K
      = { s with
          state := .dhcpSolicit
            { st0 with
              retry_at := st0.retry_at
                + (backoffSum s.retry_config.initial_request_timeout K : Nat)
              retry := K }
          transaction_id := t } := by
  intro K
  induction K with
  | zero =>
    intro _
    refine ⟨s.transaction_id, ?_⟩
    rcases st0 with ⟨cid, ra, r, m, pi⟩
    simp at h0
    subst h0
    simp [solicitIter, backoffSum, ← hs]
  | succ k ih =>
    intro hk
    obtain ⟨t, ht⟩ := ih (by omega)
    refine ⟨xid, ?_⟩
    have hstate : (solicitIter s eth xid k).state
        = .dhcpSolicit
            { st0 with
              retry_at := st0.retry_at
                + (backoffSum s.retry_config.initial_request_timeout k : Nat)
              retry := k } := by rw [ht]
    have hpoll : (solicitIter s eth xid k).poll_at
        = st0.retry_at + (backoffSum s.retry_config.initial_request_timeout k : Nat) := by
      rw [ht]; rfl
    have hstep := dispatch_solicit_ok (solicitIter s eth xid k) _
      ((solicitIter s eth xid k).poll_at) eth xid hstate (le_of_eq hpoll.symm)
    show (solicitIter s eth xid (k + 1)) = _
    rw [solicitIter]
    rw [hstep, ht]
    have hshift : min k 16 / 2 = k / 2 := by omega
    simp only [hpoll, ht, backoffSum_succ, hshift]
    simp [Socket.mk.injEq, ClientState.dhcpSolicit.injEq,
          DhcpSolicitState.mk.injEq, Socket.poll_at]
    ring

/-- Claim C8.  In `RouterSolicit`, `DhcpSolicit` and `DhcpRequesting`
each successful transmit at `now` with retry counter `r` sets
`retry_at = now + initial_request_timeout << (min(r,16)/2)` and
`retry = r + 1`; consequently, after `K` consecutive on-time dispatches
with no inbound response (`K ≤ 18`, which covers any retry count below
the `request_retries` limit, default 5, and up to where the cap at 16
first bites), the `K`-th `retry_at` is
`t0 + Σ_{i<K} initial_timeout << ⌊i/2⌋`. -/
theorem C8_backoff_formula :
    (∀ {E : Type} (s : Socket) (st : RouterSolicitState) (now : Int) (eth : List Nat)
        (xid : Nat) (emit : DispatchEmit → Option E),
      s.state = .routerSolicit st → st.retry_at ≤ now →
      (s.dispatch now eth xid emit).sent.isSome →
      (s.dispatch now eth xid emit).error = none →
      (s.dispatch now eth xid emit).socket.state
        = .routerSolicit
            { retry_at := now
                + (shlDur s.retry_config.initial_request_timeout (min st.retry 16 / 2) : Nat)
              retry := st.retry + 1 })
    ∧ (∀ {E : Type} (s : Socket) (st : DhcpSolicitState) (now : Int) (eth : List Nat)
        (xid : Nat) (emit : DispatchEmit → Option E),
      s.state = .dhcpSolicit st → st.retry_at ≤ now →
      (s.dispatch now eth xid emit).sent.isSome →
      (s.dispatch now eth xid emit).error = none →
      (s.dispatch now eth xid emit).socket.state
        = .dhcpSolicit
            { st with
              retry_at := now
                + (shlDur s.retry_config.initial_request_timeout (min st.retry 16 / 2) : Nat)
              retry := st.retry + 1 })
    ∧ (∀ {E : Type} (s : Socket) (st : DhcpRequestState) (now : Int) (eth : List Nat)
        (xid : Nat) (emit : DispatchEmit → Option E),
      s.state = .dhcpRequesting st → st.retry_at ≤ now →
      st.retry < s.retry_config.request_retries →
      (s.dispatch now eth xid emit).sent.isSome →
      (s.dispatch now eth xid emit).error = none →
      (s.dispatch now eth xid emit).socket.state
        = .dhcpRequesting
            { st with
              retry_at := now
                + (shlDur s.retry_config.initial_request_timeout (min st.retry 16 / 2) : Nat)
              retry := st.retry + 1 })
    ∧ (∀ (s : Socket) (st0 : DhcpSolicitState) (eth : List Nat) (xid K : Nat),
      s.state = .dhcpSolicit st0 → st0.retry = 0 → K ≤ 18 →
      (solicitIter s eth xid K).state
        = .dhcpSolicit
            { st0 with
              retry_at := st0.retry_at
                + (backoffSum s.retry_config.initial_request_timeout K : Nat)
              retry := K }) := by
  refine ⟨?_, ?_, ?_, ?_⟩
  · intro E s st now eth xid emit hs hnow
    unfold Socket.dispatch
    rw [hs]
    simp only [if_neg (not_lt.mpr hnow)]
    split <;> simp_all
  · intro E s st now eth xid emit hs hnow
    unfold Socket.dispatch
    rw [hs]
    simp only [if_neg (not_lt.mpr hnow)]
    split <;> simp_all
  · intro E s st now eth xid emit hs hnow hretry
    unfold Socket.dispatch
    rw [hs]
    simp only [if_neg (not_lt.mpr hnow), if_neg (not_le.mpr hretry)]
    split <;> simp_all
  · intro s st0 eth xid K hs h0 hK
    obtain ⟨t, ht⟩ := solicitIter_eq s st0 eth xid hs h0 K hK
    rw [ht]

/-- Witness for C8: the sample `DhcpSolicit` socket (default 2 s initial
timeout) after one dispatch and after three on-time dispatches:
`backoffSum 2000 3 = 2000 + 2000 + 4000`. -/
theorem C8_backoff_witness :
    (solicitSocket.dispatch 0 ethAddr 42 emitOk).socket.state
      = .dhcpSolicit
          { client_id := [9], retry_at := 2000, retry := 1, mtu := 1500
            prefix_info := { prefix_len := 64 } }
    ∧ (solicitIter solicitSocket ethAddr 42 3).state
      = .dhcpSolicit
          { client_id := [9], retry_at := 8000, retry := 3, mtu := 1500
            prefix_info := { prefix_len := 64 } }
    ∧ backoffSum 2000 3 = 2000 + 2000 + 4000 := by
  refine ⟨?_, ?_, by decide⟩
  · have h := C8_backoff_formula.2.1 solicitSocket
      { client_id := [9], retry_at := 0, retry := 0, mtu := 1500
        prefix_info := { prefix_len := 64 } }
      0 ethAddr 42 emitOk rfl le_rfl (by decide) (by decide)
    simpa using h
  · have h := C8_backoff_formula.2.2.2 solicitSocket
      { client_id := [9], retry_at := 0, retry := 0, mtu := 1500
        prefix_info := { prefix_len := 64 } }
      ethAddr 42 3 rfl rfl (by omega)
    simpa using h

/-- `reset` never touches the receive-packet buffer. -/
theorem reset_receive_buffer (s : Socket) :
    s.reset.receive_packet_buffer = s.receive_packet_buffer := by
  rcases s with ⟨st, c, t, m, r, i, sp, cp, o, p, b⟩
  cases st <;> rfl

/-- The state-machine tail of `process_udp` never touches the
receive-packet buffer. -/
theorem processUdpInner_buffer (s : Socket) (now : Int) (src_ip : List Nat) (r : Repr) :
    (s.processUdpInner now src_ip r).receive_packet_buffer = s.receive_packet_buffer := by
  unfold Socket.processUdpInner
  (repeat' split) <;> simp_all [reset_receive_buffer]

/-- A successful `Repr::parse` implies at least the 4 header bytes. -/
theorem parse_ok_length (payload : List Nat) (r : Repr)
    (h : Repr.parse payload = .ok r) : 4 ≤ payload.length := by
  unfold Repr.parse at h
  split at h
  · assumption
  · exact absurd h (by simp)

/-- Claim C9, amended.  `process_icmpv6` copies any fitting payload into
the registered receive buffer unconditionally, before state handling; in
`process_udp` the copy likewise precedes the state-machine match, but it
happens only AFTER the parse, the transaction-id check and the
server-identifier check succeed, so a packet dropped by those checks is
not copied (see the counterexample). -/
theorem C9_copy_before_state_handling :
    (∀ (s : Socket) (uuid : List Nat) (repr : Icmpv6InRepr) (payload buf : List Nat),
      s.receive_packet_buffer = some buf → payload.length ≤ buf.length →
      (s.process_icmpv6 uuid repr payload).receive_packet_buffer
        = some (payload ++ buf.drop payload.length))
    ∧ (∀ (s : Socket) (now : Int) (src_ip : List Nat) (payload buf : List Nat) (r : Repr),
      s.receive_packet_buffer = some buf → payload.length ≤ buf.length →
      Repr.parse payload = .ok r → r.transaction_id = s.transaction_id →
      r.server_id.isSome →
      ∃ s', s.process_udp now src_ip s.server_port s.client_port payload = .ok s'
        ∧ s'.receive_packet_buffer = some (payload ++ buf.drop payload.length)) := by
  constructor
  · intro s uuid repr payload buf hb hfit
    have hcopy : (copyIn s payload).receive_packet_buffer
        = some (payload ++ buf.drop payload.length) := by
      simp [copyIn, hb, hfit]
    unfold Socket.process_icmpv6
    cases hst : (copyIn s payload).state <;> cases repr <;>
      try (rename_i managed mtu pi; cases managed <;> cases mtu <;> cases pi)
    all_goals simp_all
  · intro s now src_ip payload buf r hb hfit hp hx hsid
    refine ⟨(copyIn s payload).processUdpInner now src_ip r, ?_, ?_⟩
    · unfold Socket.process_udp
      have h4 := parse_ok_length payload r hp
      rw [hp]
      obtain ⟨sid, hs⟩ := Option.isSome_iff_exists.mp hsid
      simp [not_lt.mpr h4, hx, hs]
    · rw [processUdpInner_buffer]
      simp [copyIn, hb, hfit]

/-- Witness for C9 (amended): the fresh socket with a 16-byte buffer; a
3-byte ICMPv6 payload is copied, and a 9-byte Confirm with the matching
transaction id 1 and a server id is copied by `process_udp`. -/
theorem C9_copy_witness :
    (udpSocket.process_icmpv6 [0] .other [1, 2, 3]).receive_packet_buffer
      = some ([1, 2, 3] ++ (List.replicate 16 9).drop 3)
    ∧ ∃ s', udpSocket.process_udp 0 serverAddr udpSocket.server_port
          udpSocket.client_port [4, 0, 0, 1, 0, 2, 0, 1, 7] = .ok s'
        ∧ s'.receive_packet_buffer
          = some ([4, 0, 0, 1, 0, 2, 0, 1, 7] ++ (List.replicate 16 9).drop 9) :=
  ⟨C9_copy_before_state_handling.1 udpSocket [0] .other [1, 2, 3]
      (List.replicate 16 9) rfl (by decide),
   C9_copy_before_state_handling.2 udpSocket 0 serverAddr [4, 0, 0, 1, 0, 2, 0, 1, 7]
      (List.replicate 16 9) confirmXid1 rfl (by decide) rfl rfl rfl⟩

/-- Counterexample for C9 as stated: a fitting 9-byte DHCPv6 payload
whose transaction id (2) mismatches the stored one (1) is dropped
without being copied — the socket, buffer included, is returned
unchanged, though the copied buffer would differ. -/
theorem C9_xid_mismatch_skips_copy :
    udpSocket.process_udp 0 serverAddr 547 546 [4, 0, 0, 2, 0, 2, 0, 1, 7]
      = .ok udpSocket
    ∧ udpSocket.receive_packet_buffer = some (List.replicate 16 9)
    ∧ ([4, 0, 0, 2, 0, 2, 0, 1, 7] : List Nat).length ≤ 16
    ∧ some (List.replicate 16 9)
      ≠ some (([4, 0, 0, 2, 0, 2, 0, 1, 7] : List Nat)
          ++ (List.replicate 16 9).drop 9) := by
  refine ⟨rfl, rfl, by decide, by decide⟩


theorem wRaw_exact (bytes : List Nat) : WExact (wRaw bytes) bytes := by
  constructor
  · intro cap h
    simp [wRaw, h]
  · intro cap h c b
    simp [wRaw, not_le.mpr h]

theorem optBytes_length (o : Dhcpv6Option) : (optBytes o).length = 4 + o.data.length := by
  simp [optBytes, u16be]
  omega

theorem wEmit_exact (kind : Nat) (data : List Nat) (h : data.length ≤ 65535) :
    WExact (wEmit kind data) (optBytes ⟨kind, data⟩) := by
  have hlen : (optBytes ⟨kind, data⟩).length = 4 + data.length := optBytes_length _
  constructor
  · intro cap hcap
    rw [hlen] at hcap
    simp only [wEmit]
    rw [if_neg (not_lt.mpr h), if_neg (by omega)]
    rw [hlen]
    simp [optBytes]
  · intro cap hcap c b
    rw [hlen] at hcap
    simp only [wEmit]
    rw [if_neg (not_lt.mpr h), if_pos (by omega)]
    simp

theorem wNil_exact : WExact wNil [] := by
  constructor
  · intro cap _
    simp [wNil]
  · intro cap h
    simp at h

theorem wSeq_exact {f g : WriterM} {b1 b2 : List Nat}
    (hf : WExact f b1) (hg : WExact g b2) : WExact (wSeq f g) (b1 ++ b2) := by
  constructor
  · intro cap h
    rw [List.length_append] at h
    have h1 := hf.1 cap (by omega)
    have h2 := hg.1 (cap - b1.length) (by omega)
    simp [wSeq, h1, h2, List.length_append]
    omega
  · intro cap h c b
    rw [List.length_append] at h
    by_cases hc1 : b1.length ≤ cap
    · have h1 := hf.1 cap hc1
      intro hcon
      simp only [wSeq, h1] at hcon
      cases heq : g (cap - b1.length) with
      | ok p =>
        exact hg.2 (cap - b1.length) (by omega) p.1 p.2 (by simpa using heq)
      | err => rw [heq] at hcon; simp at hcon
      | crash => rw [heq] at hcon; simp at hcon
    · intro hcon
      simp only [wSeq] at hcon
      cases heq : f cap with
      | ok p => exact hf.2 cap (by omega) p.1 p.2 (by simpa using heq)
      | err => rw [heq] at hcon; simp at hcon
      | crash => rw [heq] at hcon; simp at hcon

theorem wAll_exact {fs : List WriterM} {bs : List (List Nat)}
    (h : List.Forall₂ WExact fs bs) : WExact (wAll fs) bs.flatten := by
  induction h with
  | nil => exact wNil_exact
  | cons hfb _ ih =>
    simpa [wAll] using wSeq_exact hfb ih



theorem forall2_append {α β : Type} {R : α → β → Prop} {a c : List α} {b d : List β}
    (h1 : List.Forall₂ R a b) (h2 : List.Forall₂ R c d) :
    List.Forall₂ R (a ++ c) (b ++ d) := List.rel_append h1 h2

theorem forall2_optEmit (opts : List Dhcpv6Option) (h : ∀ o ∈ opts, OptValid o) :
    List.Forall₂ WExact (opts.map fun o => wEmit o.kind o.data) (opts.map optBytes) := by
  induction opts with
  | nil => exact .nil
  | cons o rest ih =>
    exact .cons (wEmit_exact o.kind o.data (h o (by simp)))
      (ih fun o' ho' => h o' (by simp [ho']))

theorem statusCode_emit_exact (s : ReprStatusCode) :
    WExact s.emit (statusBytes s) := by
  have h : statusBytes s
      = ([u16be OPT_STATUS_CODE, u16be s.data_len, u16be s.status_code,
          s.status_message] : List (List Nat)).flatten := by
    simp [statusBytes]
  rw [h]
  exact wAll_exact
    (.cons (wRaw_exact _) (.cons (wRaw_exact _)
      (.cons (wRaw_exact _) (.cons (wRaw_exact _) .nil))))

theorem iaAddr_emit_exact (a : ReprIaAddr) (h : IaAddrValid a) :
    WExact a.emit (iaAddrBytes a) := by
  have hb : iaAddrBytes a
      = ([u16be OPT_IA_PD, u16be a.data_len, a.addr, u32be a.preferred_lifetime,
          u32be a.valid_lifetime] ++ a.additional_options.map optBytes).flatten := by
    simp [iaAddrBytes]
  rw [hb]
  apply wAll_exact
  refine forall2_append ?_ (forall2_optEmit _ h.2)
  exact .cons (wRaw_exact _) (.cons (wRaw_exact _) (.cons (wRaw_exact _)
    (.cons (wRaw_exact _) (.cons (wRaw_exact _) .nil))))



theorem forall2_addrEmit (addrs : List ReprIaAddr) (h : ∀ a ∈ addrs, IaAddrValid a) :
    List.Forall₂ WExact (addrs.map ReprIaAddr.emit) (addrs.map iaAddrBytes) := by
  induction addrs with
  | nil => exact .nil
  | cons a rest ih =>
    exact .cons (iaAddr_emit_exact a (h a (by simp)))
      (ih fun a' ha' => h a' (by simp [ha']))

theorem iaNa_emit_exact (ia : ReprIaNa) (h : IaNaValid ia) :
    WExact ia.emit (iaNaBytes ia) := by
  rcases ia with ⟨iaid, t1, t2, addrs, status, addl⟩
  have hb : iaNaBytes ⟨iaid, t1, t2, addrs, status, addl⟩
      = (([u16be OPT_IA_NA, u16be (ReprIaNa.data_len ⟨iaid, t1, t2, addrs, status, addl⟩),
           u32be iaid, u32be t1, u32be t2]
          ++ addrs.map iaAddrBytes
          ++ (match status with
              | some s => [statusBytes s]
              | none => [])
          ++ addl.map optBytes) : List (List Nat)).flatten := by
    cases status <;> simp [iaNaBytes]
  rw [hb]
  apply wAll_exact
  refine forall2_append (forall2_append (forall2_append ?_ ?_) ?_) ?_
  · exact .cons (wRaw_exact _) (.cons (wRaw_exact _) (.cons (wRaw_exact _)
      (.cons (wRaw_exact _) (.cons (wRaw_exact _) .nil))))
  · exact forall2_addrEmit addrs h.1
  · cases status with
    | some s => exact .cons (statusCode_emit_exact s) .nil
    | none => exact .nil
  · exact forall2_optEmit addl h.2

theorem iaTa_emit_exact (ia : ReprIaTa) (h : IaTaValid ia) :
    WExact ia.emit (iaTaBytes ia) := by
  rcases ia with ⟨iaid, addrs, status, addl⟩
  have hb : iaTaBytes ⟨iaid, addrs, status, addl⟩
      = (([u16be OPT_IA_TA, u16be (ReprIaTa.data_len ⟨iaid, addrs, status, addl⟩),
           u32be iaid]
          ++ addrs.map iaAddrBytes
          ++ (match status with
              | some s => [statusBytes s]
              | none => [])
          ++ addl.map optBytes) : List (List Nat)).flatten := by
    cases status <;> simp [iaTaBytes]
  rw [hb]
  apply wAll_exact
  refine forall2_append (forall2_append (forall2_append ?_ ?_) ?_) ?_
  · exact .cons (wRaw_exact _) (.cons (wRaw_exact _) (.cons (wRaw_exact _) .nil))
  · exact forall2_addrEmit addrs h.1
  · cases status with
    | some s => exact .cons (statusCode_emit_exact s) .nil
    | none => exact .nil
  · exact forall2_optEmit addl h.2

theorem dns_emit_exact (dns : ReprDnsServers) :
    WExact dns.emit (dnsBytes dns) := by
  have hb : dnsBytes dns
      = (([u16be OPT_DNS_SERVERS, u16be dns.data_len] ++ dns.addresses)
          : List (List Nat)).flatten := by
    simp [dnsBytes]
  rw [hb]
  apply wAll_exact
  refine forall2_append (.cons (wRaw_exact _) (.cons (wRaw_exact _) .nil)) ?_
  induction dns.addresses with
  | nil => exact .nil
  | cons a rest ih => exact .cons (wRaw_exact a) ih

theorem flatMap_u16be_length (codes : List Nat) :
    (codes.flatMap u16be).length = 2 * codes.length := by
  induction codes with
  | nil => simp
  | cons c rest ih => simp [u16be, ih]; omega

theorem oro_emit_exact (codes : List Nat) (h : codes.length ≤ MAX_REQUEST_OPTIONS) :
    WExact (oroEmit codes) (optBytes ⟨OPT_ORO, codes.flatMap u16be⟩) := by
  have hlen : (codes.flatMap u16be).length ≤ 65535 := by
    rw [flatMap_u16be_length]
    have : codes.length ≤ 16 := h
    omega
  have hw := wEmit_exact OPT_ORO (codes.flatMap u16be) hlen
  have hnot : ¬(MAX_REQUEST_OPTIONS < codes.length) := not_lt.mpr h
  constructor
  · intro cap hcap
    simp only [oroEmit, if_neg hnot]
    exact hw.1 cap hcap
  · intro cap hcap c b
    simp only [oroEmit, if_neg hnot]
    exact hw.2 cap hcap c b




theorem reprOptionBytes_flat (mt xid : Nat) (cid sid : Option (List Nat))
    (et : Option Nat) (ro : Option (List Nat)) (ina : Option ReprIaNa)
    (ita : Option ReprIaTa) (dns : Option ReprDnsServers) (addl : List Dhcpv6Option) :
    reprOptionBytes ⟨mt, xid, cid, sid, et, ro, ina, ita, dns, addl⟩
      = ((segBytes cid fun v => optBytes ⟨OPT_CLIENTID, v⟩)
          ++ (segBytes sid fun v => optBytes ⟨OPT_SERVERID, v⟩)
          ++ (segBytes et fun v => optBytes ⟨OPT_ELAPSED_TIME, u16be v⟩)
          ++ segBytes ina iaNaBytes
          ++ segBytes ita iaTaBytes
          ++ segBytes dns dnsBytes
          ++ (segBytes ro fun codes => optBytes ⟨OPT_ORO, codes.flatMap u16be⟩)
          ++ addl.map optBytes).flatten := by
  cases cid <;> cases sid <;> cases et <;> cases ina <;> cases ita <;>
    cases dns <;> cases ro <;> simp [reprOptionBytes, segBytes]

theorem optionsEmit_exact (r : Repr) (h : ReprValid r) :
    WExact r.optionsEmit (reprOptionBytes r) := by
  obtain ⟨h1, h2, h3, h4, h5, h6, h7⟩ := h
  rcases r with ⟨mt, xid, cid, sid, et, ro, ina, ita, dns, addl⟩
  dsimp only at h1 h2 h3 h4 h5 h6 h7 ⊢
  have hb := reprOptionBytes_flat mt xid cid sid et ro ina ita dns addl
  rw [hb]
  apply wAll_exact
  refine forall2_append (forall2_append (forall2_append (forall2_append
    (forall2_append (forall2_append (forall2_append ?_ ?_) ?_) ?_) ?_) ?_) ?_)
    (forall2_optEmit addl h7)
  · cases cid with
    | some v => exact .cons (wEmit_exact _ v h1) .nil
    | none => exact .nil
  · cases sid with
    | some v => exact .cons (wEmit_exact _ v h2) .nil
    | none => exact .nil
  · cases et with
    | some v => exact .cons (wEmit_exact _ (u16be v) (by simp [u16be])) .nil
    | none => exact .nil
  · cases ina with
    | some ia => exact .cons (iaNa_emit_exact ia h3) .nil
    | none => exact .nil
  · cases ita with
    | some ia => exact .cons (iaTa_emit_exact ia h4) .nil
    | none => exact .nil
  · cases dns with
    | some d => exact .cons (dns_emit_exact d) .nil
    | none => exact .nil
  · cases ro with
    | some codes => exact .cons (oro_emit_exact codes h6) .nil
    | none => exact .nil


theorem optBytes_comp_sum (opts : List Dhcpv6Option) :
    (opts.map (List.length ∘ optBytes)).sum
      = 4 * opts.length + (opts.map fun o => o.data.length).sum := by
  induction opts with
  | nil => simp
  | cons o rest ih =>
    simp only [List.map_cons, List.sum_cons, Function.comp_apply, optBytes_length,
               List.length_cons, ih]
    omega

theorem statusBytes_length (s : ReprStatusCode) :
    (statusBytes s).length = 4 + s.data_len := by
  simp [statusBytes, u16be, ReprStatusCode.data_len]
  omega

theorem iaAddrBytes_length (a : ReprIaAddr) (h : IaAddrValid a) :
    (iaAddrBytes a).length = 4 + a.data_len := by
  simp [iaAddrBytes, u16be, u32be, ReprIaAddr.data_len, List.length_flatten,
        optBytes_comp_sum, h.1]
  omega

theorem addrBytes_comp_sum (addrs : List ReprIaAddr) (h : ∀ a ∈ addrs, IaAddrValid a) :
    (addrs.map (List.length ∘ iaAddrBytes)).sum
      = 4 * addrs.length + (addrs.map ReprIaAddr.data_len).sum := by
  induction addrs with
  | nil => simp
  | cons a rest ih =>
    simp only [List.map_cons, List.sum_cons, Function.comp_apply,
               iaAddrBytes_length a (h a (by simp)), List.length_cons,
               ih fun a' ha' => h a' (by simp [ha'])]
    omega

theorem iaNaBytes_length (ia : ReprIaNa) (h : IaNaValid ia) :
    (iaNaBytes ia).length = 4 + ia.data_len := by
  rcases ia with ⟨iaid, t1, t2, addrs, status, addl⟩
  obtain ⟨ha, ho⟩ := h
  cases status <;>
    simp [iaNaBytes, u16be, u32be, ReprIaNa.data_len, List.length_flatten,
          optBytes_comp_sum, addrBytes_comp_sum addrs ha, statusBytes_length] <;>
    omega

theorem iaTaBytes_length (ia : ReprIaTa) (h : IaTaValid ia) :
    (iaTaBytes ia).length = 4 + ia.data_len := by
  rcases ia with ⟨iaid, addrs, status, addl⟩
  obtain ⟨ha, ho⟩ := h
  cases status <;>
    simp [iaTaBytes, u16be, u32be, ReprIaTa.data_len, List.length_flatten,
          optBytes_comp_sum, addrBytes_comp_sum addrs ha, statusBytes_length] <;>
    omega

theorem dnsBytes_length (dns : ReprDnsServers) (h : DnsValid dns) :
    (dnsBytes dns).length = 4 + dns.data_len := by
  rcases dns with ⟨addrs⟩
  have hsum : (addrs.map List.length).sum = (addrs.map fun _ => 16).sum := by
    induction addrs with
    | nil => simp
    | cons a rest ih =>
      simp only [List.map_cons, List.sum_cons, h a (by simp),
                 ih fun a' ha' => h a' (by simp [ha'])]
  simp [dnsBytes, u16be, ReprDnsServers.data_len, List.length_flatten, hsum]
  omega

theorem u16be_comp_sum (codes : List Nat) :
    (codes.map (List.length ∘ u16be)).sum = 2 * codes.length := by
  induction codes with
  | nil => simp
  | cons c rest ih =>
    simp only [List.map_cons, List.sum_cons, Function.comp_apply, List.length_cons, ih]
    simp [u16be]
    omega

theorem sum_add4 (addl : List Dhcpv6Option) :
    (addl.map fun o => 4 + o.data.length).sum
      = 4 * addl.length + (addl.map fun o => o.data.length).sum := by
  induction addl with
  | nil => simp
  | cons o rest ih =>
    simp only [List.map_cons, List.sum_cons, List.length_cons, ih]
    omega

theorem segLen {α : Type} (o : Option α) (f : α → List Nat) (g : α → Nat)
    (h : ∀ a, o = some a → (f a).length = g a) :
    (List.map List.length (segBytes o f)).sum = segLenVal o g := by
  cases o with
  | some a => simp [segBytes, segLenVal, h a rfl]
  | none => simp [segBytes, segLenVal]

theorem reprOptionBytes_length (r : Repr) (h : ReprValid r) :
    r.buffer_len = 4 + (reprOptionBytes r).length := by
  obtain ⟨h1, h2, h3, h4, h5, h6, h7⟩ := h
  rcases r with ⟨mt, xid, cid, sid, et, ro, ina, ita, dns, addl⟩
  dsimp only at h1 h2 h3 h4 h5 h6 h7
  rw [reprOptionBytes_flat, List.length_flatten]
  simp only [List.map_append, List.sum_append]
  rw [segLen cid _ (fun v => 4 + v.length) (by
        intro v hv; rw [optBytes_length]),
      segLen sid _ (fun v => 4 + v.length) (by
        intro v hv; rw [optBytes_length]),
      segLen et _ (fun _ => 4 + 2) (by
        intro v hv; rw [optBytes_length]; simp [u16be]),
      segLen ina _ (fun ia => 4 + ia.data_len) (by
        intro ia hia; exact iaNaBytes_length ia (by rw [hia] at h3; exact h3)),
      segLen ita _ (fun ia => 4 + ia.data_len) (by
        intro ia hia; exact iaTaBytes_length ia (by rw [hia] at h4; exact h4)),
      segLen dns _ (fun d => 4 + d.data_len) (by
        intro d hd; exact dnsBytes_length d (by rw [hd] at h5; exact h5)),
      segLen ro _ (fun codes => 4 + 2 * codes.length) (by
        intro codes hc; rw [optBytes_length]
        simp [flatMap_u16be_length, u16be_comp_sum]),
      List.map_map, optBytes_comp_sum]
  show Repr.buffer_len _ = _
  simp only [Repr.buffer_len, sum_add4]
  cases cid <;> cases sid <;> cases et <;> cases ina <;> cases ita <;>
    cases dns <;> cases ro <;> dsimp only [segLenVal] <;> omega



/-- Claim C7, amended.  For every valid `Repr`, `emit` into a buffer of
exactly `buffer_len` bytes succeeds (producing the byte image
`reprBytes`); into a buffer one byte shorter it fails — but not always by
returning `Err(Error)`: the shortfall is an `Err` only when detected by
the checked option writer, while the header write and the raw writes of
IA_NA, IA_TA, status-code and DNS-server bodies panic instead (see the
counterexample). -/
theorem C7_emit_exact_buffer_len (r : Repr) (h : ReprValid r) :
    Repr.emit r r.buffer_len = .ok (reprBytes r)
    ∧ ∀ b, Repr.emit r (r.buffer_len - 1) ≠ .ok b := by
  have hex := optionsEmit_exact r h
  have hlen := reprOptionBytes_length r h
  constructor
  · unfold Repr.emit
    rw [if_neg (by omega)]
    rw [hex.1 (r.buffer_len - 4) (by omega)]
    simp [reprBytes]
  · intro b
    unfold Repr.emit
    by_cases h4 : r.buffer_len - 1 < 4
    · rw [if_pos h4]
      simp
    · rw [if_neg h4]
      cases heq : r.optionsEmit (r.buffer_len - 1 - 4) with
      | ok p =>
        exact absurd (by simpa using heq)
          (hex.2 (r.buffer_len - 1 - 4) (by omega) p.1 p.2)
      | err => simp
      | crash => simp


/-- Counterexample for C7 as stated: a `Repr` carrying an IA_NA, emitted
into a buffer one byte shorter than `buffer_len`, panics
(`copy_from_slice` out of bounds in `ReprIaNa::emit`) instead of
returning `Err(Error)`. -/
theorem C7_short_buffer_panics :
    Repr.emit iaNaOnlyRepr (iaNaOnlyRepr.buffer_len - 1) = .crash
    ∧ (ER.crash : ER (List Nat)) ≠ .err := by
  refine ⟨rfl, by decide⟩

/-- Witness for C7 (amended), at the ORO-only sample `Repr`
(`buffer_len = 12`). -/
theorem C7_emit_exact_witness :
    Repr.emit oroRepr oroRepr.buffer_len = .ok (reprBytes oroRepr)
    ∧ Repr.emit oroRepr (oroRepr.buffer_len - 1) ≠ .ok (reprBytes oroRepr) := by
  have h : ReprValid oroRepr := by
    refine ⟨trivial, trivial, trivial, trivial, trivial, ?_, ?_⟩
    · show ([23, 24] : List Nat).length ≤ MAX_REQUEST_OPTIONS
      decide
    · intro o ho
      simp [oroRepr] at ho
  exact ⟨(C7_emit_exact_buffer_len oroRepr h).1, (C7_emit_exact_buffer_len oroRepr h).2 _⟩


theorem iaOptionsFold_addresses (opts : List Dhcpv6Option) (addrs : List ReprIaAddr)
    (status : Option ReprStatusCode) (as : List ReprIaAddr) (st : Option ReprStatusCode)
    (h : iaOptionsFold opts addrs status = .ok (as, st)) :
    as = iaAddrsOfOptions opts addrs := by
  induction opts generalizing addrs status with
  | nil =>
    simp [iaOptionsFold] at h
    simp [iaAddrsOfOptions, h.1]
  | cons o rest ih =>
    unfold iaOptionsFold at h
    by_cases h25 : o.kind = OPT_IA_PD
    · rw [if_pos h25] at h
      cases hp : ReprIaAddr.parse o.data with
      | ok a =>
        rw [hp] at h
        have := ih _ _ h
        simp [iaAddrsOfOptions, List.filter_cons, h25, hp] at this ⊢
        exact this
      | err => rw [hp] at h; simp at h
      | crash => rw [hp] at h; simp at h
    · rw [if_neg h25] at h
      by_cases h13 : o.kind = OPT_STATUS_CODE
      · rw [if_pos h13] at h
        cases hp : ReprStatusCode.parse o.data with
        | ok s =>
          rw [hp] at h
          have := ih _ _ h
          simp [iaAddrsOfOptions, List.filter_cons, h25] at this ⊢
          exact this
        | err => rw [hp] at h; simp at h
        | crash => rw [hp] at h; simp at h
      · rw [if_neg h13] at h
        have := ih _ _ h
        simp [iaAddrsOfOptions, List.filter_cons, h25] at this ⊢
        exact this

theorem iaAddrsOfOptions_no25 (opts : List Dhcpv6Option)
    (h : ∀ o ∈ opts, ¬o.kind = OPT_IA_PD) (acc : List ReprIaAddr) :
    iaAddrsOfOptions opts acc = acc := by
  unfold iaAddrsOfOptions
  rw [List.filter_eq_nil_iff.mpr (by simpa using h)]
  rfl

/-- Claim C10.  Addresses of an IA_NA/IA_TA travel under nested option
code 25 (`OPT_IA_PD`), not the RFC 8415 IA-address code 5
(`OPT_IA_ADDR`): `ReprIaAddr::emit` writes option code 25 (first two
emitted bytes `[0, 25]`), a successfully parsed IA_NA collects as
addresses exactly the nested options with code 25, and a stream whose
options all have other codes (such as 5) contributes no address. -/
theorem C10_addresses_under_code_25 :
    (∀ a : ReprIaAddr,
      (iaAddrBytes a).take 2 = [0, 25]
      ∧ u16be OPT_IA_ADDR = [0, 5]
      ∧ (IaAddrValid a → ∀ cap, (iaAddrBytes a).length ≤ cap →
          ReprIaAddr.emit a cap = .ok (cap - (iaAddrBytes a).length, iaAddrBytes a)))
    ∧ (∀ (d : List Nat) (ia : ReprIaNa), ReprIaNa.parse d = .ok ia →
        ia.addresses = iaAddrsOfOptions (parse_options (d.drop 12)) [])
    ∧ (∀ opts : List Dhcpv6Option, (∀ o ∈ opts, ¬o.kind = OPT_IA_PD) →
        iaAddrsOfOptions opts [] = []) := by
  refine ⟨?_, ?_, ?_⟩
  · intro a
    refine ⟨?_, by decide, ?_⟩
    · simp [iaAddrBytes, u16be, OPT_IA_PD]
    · intro hv cap hcap
      exact (iaAddr_emit_exact a hv).1 cap hcap
  · intro d ia hok
    unfold ReprIaNa.parse at hok
    split at hok
    · cases heq : iaOptionsFold (parse_options (d.drop 12)) [] none with
      | ok p =>
        obtain ⟨as, st⟩ := p
        rw [heq] at hok
        simp at hok
        rw [← hok]
        exact iaOptionsFold_addresses _ _ _ _ _ heq
      | err => rw [heq] at hok; simp at hok
      | crash => rw [heq] at hok; simp at hok
    · simp at hok
  · intro opts h
    exact iaAddrsOfOptions_no25 opts h []

/-- Witness for C10: the all-zero address emits with leading bytes
`[0, 25]`; `iaNaData25` (one nested code-25 option) parses to one
address, and `iaNaData5` (one nested code-5 option) parses to none. -/
theorem C10_addresses_witness :
    (iaAddrBytes addr0).take 2 = [0, 25]
    ∧ iaNaFrom25.addresses = iaAddrsOfOptions (parse_options (iaNaData25.drop 12)) []
    ∧ iaAddrsOfOptions (parse_options (iaNaData5.drop 12)) [] = []
    ∧ ReprIaNa.parse iaNaData25 = .ok iaNaFrom25
    ∧ ReprIaNa.parse iaNaData5 = .ok iaNaFrom5
    ∧ ReprIaAddr.emit addr0 (iaAddrBytes addr0).length
      = .ok ((iaAddrBytes addr0).length - (iaAddrBytes addr0).length, iaAddrBytes addr0) := by
  refine ⟨(C10_addresses_under_code_25.1 addr0).1,
          C10_addresses_under_code_25.2.1 iaNaData25 iaNaFrom25 rfl,
          C10_addresses_under_code_25.2.2 _ (by decide), rfl, rfl,
          (C10_addresses_under_code_25.1 addr0).2.2
            ⟨by decide, by intro o ho; simp [addr0] at ho⟩ _ le_rfl⟩

end Dhcpv6
